import Mathlib

/-
Verification of the PBL.AI task-orchestration core against its specification.

The definitions below are a shallow embedding of the Python sources:
  src/core/types.py, src/core/models.py, src/core/dependencies.py,
  src/engine/state_machine.py, src/engine/decision.py, src/engine/reducer.py,
  src/services/orchestrator.py, src/validators/activity_alignment.py,
  src/generators/diversity.py, src/generators/stages/question_chain.py,
  src/generators/stages/driving_question.py, src/utils/question_chain.py.

Modelling conventions:
  - datetime.now() values are abstracted as a Nat clock value passed in
    explicitly (parameter named now);
  - uuid4().hex values are abstracted as a String passed in explicitly
    (parameter named fresh);
  - Python float is modelled as Rat (scores are only stored and compared);
  - Python dict payloads are modelled as structures holding the keys the
    embedded code reads, with Option for keys that may be absent;
  - I/O (task store, JSON persistence, SSE bus, tracing) is omitted: the
    embedding models task state and returned values only.
-/

namespace PBL

/-- StageType from src/core/types.py. -/
inductive StageType where
  | tool_seed
  | scenario
  | driving_question
  | question_chain
  | activity
  | experiment
deriving DecidableEq, Repr, Fintype

/-- EntryPoint from src/core/types.py. -/
inductive EntryPoint where
  | scenario
  | tool_seed
deriving DecidableEq, Repr, Fintype

/-- CandidateStatus from src/core/types.py. -/
inductive CandidateStatus where
  | generated
  | frozen
  | selected
deriving DecidableEq, Repr

/-- StageStatus from src/core/types.py. -/
inductive StageStatus where
  | initialized
  | generating
  | pending_choice
  | feedback_loop
  | modifying
  | finalized
deriving DecidableEq, Repr, Fintype

/-- ConflictSeverity from src/core/types.py. -/
inductive ConflictSeverity where
  | blocking
  | warning
  | info
deriving DecidableEq, Repr

/-- ActionType from src/core/types.py. -/
inductive ActionType where
  | select_candidate
  | regenerate_candidates
  | provide_feedback
  | finalize_stage
  | resolve_conflict
deriving DecidableEq, Repr, Fintype

/-- Modelled from the spec: the DialogueState enumeration
(spec section 3, values exploring / generating / selecting /
conflict_resolution).  The enum class itself is absent from src/core/types.py
although src/engine/reducer.py and src/core/models.py use exactly these four
members. -/
inductive DialogueState where
  | exploring
  | generating
  | selecting
  | conflict_resolution
deriving DecidableEq, Repr

/-- The string value of a stage, as used by the Python str enum. -/
def stageValue : StageType → String
  | .tool_seed => "tool_seed"
  | .scenario => "scenario"
  | .driving_question => "driving_question"
  | .question_chain => "question_chain"
  | .activity => "activity"
  | .experiment => "experiment"

/-- STAGE_DEPENDENCIES from src/core/dependencies.py (dict lookup with
default []). -/
def STAGE_DEPENDENCIES : StageType → List StageType
  | .driving_question => [.scenario]
  | .question_chain => [.driving_question]
  | .activity => [.question_chain]
  | .experiment => [.activity]
  | _ => []

/-- TOOL_SEED_DEPENDENCIES from src/core/dependencies.py (dict lookup with
default []). -/
def TOOL_SEED_DEPENDENCIES : StageType → List StageType
  | .scenario => [.tool_seed]
  | .activity => [.tool_seed]
  | _ => []

/-- STAGE_SEQUENCE from src/core/dependencies.py. -/
def STAGE_SEQUENCE : List StageType :=
  [.scenario, .driving_question, .question_chain, .activity, .experiment]

/-- Order-preserving deduplication, embedding the seen-set loop at the end of
compute_required_deps. -/
def orderedDedup (seen : List StageType) : List StageType → List StageType
  | [] => []
  | x :: xs =>
      if x ∈ seen then orderedDedup seen xs
      else x :: orderedDedup (x :: seen) xs

/-- compute_required_deps from src/core/dependencies.py. -/
def compute_required_deps (stage : StageType) (ep : EntryPoint) : List StageType :=
  let deps := STAGE_DEPENDENCIES stage
  let deps :=
    if ep = EntryPoint.tool_seed then TOOL_SEED_DEPENDENCIES stage ++ deps else deps
  orderedDedup [] deps

/-- compute_missing_deps from src/core/dependencies.py. -/
def compute_missing_deps (stage : StageType) (ep : EntryPoint)
    (completed : List StageType) : List StageType :=
  (compute_required_deps stage ep).filter (fun d => decide (d ∉ completed))

/-- The mutable state of the depth-first search inside
topo_sort_missing_chain: the chain list, the visited set and the visiting set
(sets are modelled as lists, used through membership only). -/
structure DfsState where
  chain : List StageType
  visited : List StageType
  visiting : List StageType
deriving DecidableEq, Repr

mutual

/-- The recursive visit closure of topo_sort_missing_chain from
src/core/dependencies.py, parametrised over the membership function of
completed_stages.  The fuel argument is an embedding artifact: the Python
recursion is unbounded, and dfsVisit_never_fuel below shows the fuel branch is
unreachable at the fuel used by topo_sort_missing_chain. -/
def dfsVisit (ep : EntryPoint) (completedB : StageType → Bool) :
    Nat → StageType → DfsState → Except String DfsState
  | 0, _, _ => Except.error "fuel exhausted"
  | Nat.succ fuel, stage, st =>
      if stage ∈ st.visiting then Except.error "Dependency cycle detected"
      else if stage ∈ st.visited then Except.ok st
      else
        match dfsVisitList ep completedB fuel
            ((compute_required_deps stage ep).filter (fun d => !(completedB d)))
            { st with visited := st.visited ++ [stage],
                      visiting := st.visiting ++ [stage] } with
        | Except.error e => Except.error e
        | Except.ok st2 =>
            let st3 : DfsState := { st2 with visiting := st2.visiting.erase stage }
            if completedB stage = false ∧ stage ∉ st3.chain then
              Except.ok { st3 with chain := st3.chain ++ [stage] }
            else Except.ok st3

/-- The for-loop over uncompleted dependencies inside the visit closure. -/
def dfsVisitList (ep : EntryPoint) (completedB : StageType → Bool) :
    Nat → List StageType → DfsState → Except String DfsState
  | _, [], st => Except.ok st
  | 0, _ :: _, _ => Except.error "fuel exhausted"
  | Nat.succ fuel, d :: ds, st =>
      match dfsVisit ep completedB fuel d st with
      | Except.error e => Except.error e
      | Except.ok st2 => dfsVisitList ep completedB fuel ds st2

end

/-- Fuel bound used by the embedding of topo_sort_missing_chain; the static
graph has six nodes so this is never exhausted (proved in claim C10). -/
def dfsFuel : Nat := 32

/-- topo_sort_missing_chain parametrised over the membership function of
completed_stages. -/
def topoSortMissingChainB (target : StageType) (ep : EntryPoint)
    (completedB : StageType → Bool) : Except String (List StageType) :=
  match dfsVisit ep completedB dfsFuel target ⟨[], [], []⟩ with
  | Except.error e => Except.error e
  | Except.ok st => Except.ok st.chain

/-- topo_sort_missing_chain from src/core/dependencies.py.  An Except.error
value embeds the raised ValueError. -/
def topo_sort_missing_chain (target : StageType) (ep : EntryPoint)
    (completed : List StageType) : Except String (List StageType) :=
  topoSortMissingChainB target ep (fun s => decide (s ∈ completed))

/-- MAX_ITERATIONS from src/engine/state_machine.py. -/
def MAX_ITERATIONS : Nat := 10

/-- ALLOWED_ACTIONS from src/engine/state_machine.py, as the membership
function of the per-status action set. -/
def ALLOWED_ACTIONS : StageStatus → List ActionType
  | .initialized =>
      [.regenerate_candidates, .provide_feedback, .select_candidate,
       .finalize_stage, .resolve_conflict]
  | .generating => [.regenerate_candidates, .provide_feedback]
  | .pending_choice =>
      [.select_candidate, .regenerate_candidates, .provide_feedback,
       .finalize_stage, .resolve_conflict]
  | .feedback_loop =>
      [.regenerate_candidates, .provide_feedback, .select_candidate,
       .finalize_stage, .resolve_conflict]
  | .modifying =>
      [.regenerate_candidates, .provide_feedback, .select_candidate,
       .finalize_stage, .resolve_conflict]
  | .finalized => [.provide_feedback, .regenerate_candidates]

/-- can_apply_action from src/engine/state_machine.py. -/
def can_apply_action (stage_status : StageStatus) (action : ActionType) : Bool :=
  decide (action ∈ ALLOWED_ACTIONS stage_status)

/-- should_force_exit from src/engine/state_machine.py. -/
def should_force_exit (iteration_count : Nat) : Bool :=
  decide (MAX_ITERATIONS ≤ iteration_count)

/-- GenerationContext entries (based_on, constraints_applied, timestamp) as
produced by the stage generators and stored on candidates and artifacts.
The Python code passes it around as an opaque dict. -/
structure GenerationContext where
  based_on : List String := []
  constraints_applied : List String := []
  timestamp : Nat := 0
deriving DecidableEq, Repr

/-- A value of a candidate content mapping: the code stores either a string
(scenario, driving_question, activity, experiment texts) or a list of strings
(question_chain). -/
inductive ContentValue where
  | str (s : String)
  | list (l : List String)
deriving DecidableEq, Repr

/-- Candidate from src/core/models.py.  content is the stage-keyed dict,
modelled as an association list. -/
structure Candidate where
  id : String
  title : String
  status : CandidateStatus := .generated
  content : List (String × ContentValue) := []
  rationale : String := ""
  derived_from : List String := []
  alignment_score : Rat := 0
  generation_context : GenerationContext := {}
deriving DecidableEq, Repr

/-- One entry of StageArtifact.history: the reducer appends either a frozen
revision snapshot (candidates_generated / candidates_regenerated) or a
feedback record (feedback_recorded). -/
inductive HistoryEntry where
  | revision (revision_id : String) (candidates : List Candidate)
      (timestamp : Nat) (reason : String)
  | feedback (timestamp : Nat) (reason : String) (feedbackText : String)
deriving DecidableEq, Repr

/-- StageArtifact from src/core/models.py. -/
structure StageArtifact where
  stage : StageType
  revision_id : String
  status : StageStatus := .initialized
  iteration_count : Nat := 0
  candidates : List Candidate := []
  selected_candidate_id : Option String := none
  warnings : List String := []
  history : List HistoryEntry := []
  generation_context : GenerationContext := {}
deriving DecidableEq, Repr

/-- ConflictOption from src/core/models.py (the opaque payload dict is not
read by the embedded code and is omitted). -/
structure ConflictOption where
  option : String
  title : String
  description : String
deriving DecidableEq, Repr

/-- Conflict from src/core/models.py. -/
structure Conflict where
  conflict_id : String := ""
  stage : StageType
  severity : ConflictSeverity
  summary : String
  warnings : List String := []
  conflict_options : List ConflictOption := []
  recommendation : String := ""
  resolved : Bool := false
  resolved_option : Option String := none
deriving DecidableEq, Repr

/-- Explanation from src/core/models.py. -/
structure Explanation where
  summary : String
  details : List String := []
deriving DecidableEq, Repr

/-- The recognised keys of the free-form DecisionResult.constraints dict:
error (dependency cycle), missing_chain (backward completion), and force_exit
with the recommendation fields (iteration ceiling). -/
structure Constraints where
  error : Option String := none
  missing_chain : Option (List String) := none
  force_exit : Bool := false
  recommended_candidate_id : Option String := none
  recommended_title : Option String := none
  recommended_alignment_score : Option Rat := none
deriving DecidableEq, Repr

/-- DecisionResult from src/core/models.py. -/
structure DecisionResult where
  next_stage : Option StageType := none
  direction : String := "forward"
  explanation : Option Explanation := none
  user_message : String := ""
  constraints : Constraints := {}
deriving DecidableEq, Repr

/-- EntryDecision from src/core/models.py. -/
structure EntryDecision where
  chosen_entry_point : EntryPoint
  rules_hit : List String := []
  model_reason : String := ""
  confidence : Rat := 0
deriving DecidableEq, Repr

/-- Message from src/core/models.py (the mode field is never read by the
embedded code and is kept for completeness). -/
structure Message where
  role : String
  text : String
  stage : Option StageType := none
  kind : String := "assistant"
  mode : String := "generating"
  entry_decision : Option EntryDecision := none
  timestamp : Nat := 0
deriving DecidableEq, Repr

/-- IntentRevision from src/core/models.py. -/
structure IntentRevision where
  timestamp : Nat := 0
  trigger : String := ""
  before : String := ""
  after : String := ""
  user_confirmed : Bool := false
deriving DecidableEq, Repr

/-- CreativeContext from src/core/models.py. -/
structure CreativeContext where
  original_intent : String := ""
  intent_evolution : List IntentRevision := []
  key_constraints : List String := []
  preferred_style : Option String := none
  anchor_concepts : List String := []
deriving DecidableEq, Repr

/-- WorkingMemory from src/core/models.py. -/
structure WorkingMemory where
  focus : String := ""
  notes : List String := []
deriving DecidableEq, Repr

/-- One entry of Task.decision_history; the reducer appends dicts of these
shapes. -/
inductive DHEntry where
  | decision (d : DecisionResult)
  | candidateSelected (stage : String) (candidate_id : String)
  | conflictResolved (stage : String) (conflict_id : Option String)
      (option : Option String)
  | entryDecision (chosen_entry_point : String) (rules_hit : List String)
      (confidence : Rat)
  | intentUpdated (before : Option String) (after : Option String)
  | requirePrevious (stage : String)
deriving DecidableEq, Repr

/-- The recognised keys of the free-form ToolSeed.constraints dict that the
embedded code reads (topic, grade, tool_constraints); the remaining
recognised keys (duration, classroom_mode, classroom_context,
knowledge_snippets, context_summary) are only used in prompt construction,
which is outside the embedded slice. -/
structure ToolConstraints where
  topic : Option String := none
  grade : Option String := none
  tool_constraints : Option String := none
deriving DecidableEq, Repr

/-- ToolSeed from src/core/models.py. -/
structure ToolSeed where
  tool_name : String
  algorithms : List String := []
  affordances : List String := []
  constraints : ToolConstraints := {}
  user_intent : String
deriving DecidableEq, Repr

/-- The recognised keys of the free-form Task.entry_data dict that the
embedded code reads: the entry scenario text and, for tool_seed entries, the
tool seed fields (the Python code re-parses entry_data as a ToolSeed when
task.tool_seed is missing). -/
structure EntryData where
  scenario : Option String := none
  tool_seed : Option ToolSeed := none
deriving DecidableEq, Repr

/-- Task from src/core/models.py.  The stage-keyed dicts artifacts and
conflicts are modelled as functions into Option, where none means the key is
absent. -/
structure Task where
  task_id : String := ""
  session_id : String := ""
  entry_point : EntryPoint
  entry_data : EntryData := {}
  tool_seed : Option ToolSeed := none
  current_stage : StageType
  completed_stages : List StageType := []
  artifacts : StageType → Option StageArtifact := fun _ => none
  status : String := "in_progress"
  stage_status : StageStatus := .initialized
  conflicts : StageType → Option (List Conflict) := fun _ => none
  last_decision : Option DecisionResult := none
  decision_history : List DHEntry := []
  messages : List Message := []
  creative_context : CreativeContext := {}
  dialogue_state : DialogueState := .generating
  working_memory : WorkingMemory := {}
  trace_root_id : Option String := none
  pending_cascade : Option String := none
  created_at : Nat := 0
  updated_at : Nat := 0

/-- Event payload from src/engine/reducer.py: the recognised keys of the
free-form payload dict, with Option marking keys that may be absent. -/
structure Payload where
  entry_point : Option EntryPoint := none
  entry_data : Option EntryData := none
  tool_seed_payload : Option ToolSeed := none
  current_stage : Option StageType := none
  completed_stages : Option (List StageType) := none
  status : Option String := none
  stage_status : Option StageStatus := none
  trace_root_id : Option String := none
  decision : Option DecisionResult := none
  revision_id : Option String := none
  candidates : List Candidate := []
  generation_context : Option GenerationContext := none
  candidate_id : Option String := none
  feedback : Option String := none
  conflict : Option Conflict := none
  conflict_id : Option String := none
  option : Option String := none
  next_stage : Option StageType := none
  message : Option Message := none
  after : Option String := none
  before : Option String := none
  revision : Option IntentRevision := none

/-- Event from src/engine/reducer.py (the trace dict is I/O metadata and is
omitted). -/
structure Event where
  event_id : String := ""
  type : String
  task_id : String := ""
  stage : Option StageType := none
  timestamp : Nat := 0
  payload : Payload := {}

/-- The string value of an entry point, as used by the Python str enum. -/
def entryPointValue : EntryPoint → String
  | .scenario => "scenario"
  | .tool_seed => "tool_seed"

/-- Python whitespace as used by str.strip and the regex class backslash-s
(space, tab, newline, carriage return, vertical tab, form feed; the embedding
restricts the Unicode classes to their ASCII part). -/
def isBlankChar (c : Char) : Bool :=
  c = ' ' || c = '\t' || c = '\n' || c = '\r' || c.toNat = 11 || c.toNat = 12

/-- Python str.strip on a character list. -/
def pyStrip (cs : List Char) : List Char :=
  ((cs.dropWhile isBlankChar).reverse.dropWhile isBlankChar).reverse

/-- Python str.strip on a String. -/
def pyStripStr (s : String) : String :=
  String.mk (pyStrip s.toList)

/-- Point update of a stage-keyed mapping. -/
def setStage {β : Type} (f : StageType → β) (stage : StageType) (v : β) :
    StageType → β :=
  fun s => if s = stage then v else f s

/-- The private helper named with a leading underscore in
src/engine/reducer.py and src/generators/utils.py: replace newlines by
spaces, strip, and cut to the limit. -/
def pyTruncate (limit : Nat) (text : String) : String :=
  if text = "" then ""
  else
    String.mk
      ((pyStrip (text.toList.map (fun c => if c = '\n' then ' ' else c))).take limit)

/-- Key lookup in a candidate content mapping (Python: key in content /
content.get(key)). -/
def lookupContent (content : List (String × ContentValue)) (key : String) :
    Option ContentValue :=
  (content.find? (fun kv => decide (kv.1 = key))).map (fun kv => kv.2)

/-- Summary of one content value inside summarize_candidate_content: lists
are joined with a separator over their first three truthy items, strings are
truncated. -/
def summarizeContentValue (v : ContentValue) : String :=
  match v with
  | .list l => pyTruncate 160 (String.intercalate " / " ((l.take 3).filter (fun s => s ≠ "")))
  | .str s => pyTruncate 160 s

/-- Fallback summary for a content dict hitting none of the stage keys.  The
Python code stringifies the whole dict (str(content)); the embedding
abstracts that repr as the joined key list, which no claim depends on. -/
def contentReprFallback (content : List (String × ContentValue)) : String :=
  pyTruncate 160 (String.intercalate ", " (content.map (fun kv => kv.1)))

/-- The private summarize-candidate-content helper of src/engine/reducer.py,
restricted to the dict case (Candidate.content is always a dict). -/
def summarize_candidate_content (content : List (String × ContentValue)) : String :=
  match ["scenario", "driving_question", "question_chain", "activity",
      "experiment"].findSome? (fun k => lookupContent content k) with
  | some v => summarizeContentValue v
  | none => contentReprFallback content

/-- The last n elements of a list (Python list slicing with a negative
index). -/
def lastN {α : Type} (n : Nat) (l : List α) : List α :=
  l.drop (l.length - n)

/-- The private append-working-memory helper of src/engine/reducer.py: a
truthy note is truncated to 200 characters and appended, the notes are capped
to the most recent 10, and a truthy focus replaces the focus. -/
def append_working_memory (task : Task) (note : String) (focus : Option String) :
    Task :=
  let task :=
    if note ≠ "" then
      { task with
        working_memory :=
          { task.working_memory with
            notes := lastN 10 (task.working_memory.notes ++ [pyTruncate 200 note]) } }
    else task
  match focus with
  | some f => if f ≠ "" then
      { task with working_memory := { task.working_memory with focus := f } }
    else task
  | none => task

/-- The private ensure-artifact helper of src/engine/reducer.py: a missing
stage key is filled with a default StageArtifact, whose default revision_id
is a fresh uuid (the fresh parameter). -/
def ensure_artifact (fresh : String) (task : Task) (stage : StageType) :
    Task × StageArtifact :=
  match task.artifacts stage with
  | some art => (task, art)
  | none =>
      let art : StageArtifact := { stage := stage, revision_id := fresh }
      ({ task with artifacts := setStage task.artifacts stage (some art) }, art)

/-- The private freeze-candidates helper of src/engine/reducer.py: every
non-selected candidate becomes frozen. -/
def freeze_candidates (cands : List Candidate) : List Candidate :=
  cands.map (fun c =>
    if c.status ≠ CandidateStatus.selected then { c with status := CandidateStatus.frozen }
    else c)

/-- apply_event from src/engine/reducer.py.  now abstracts datetime.now()
and fresh abstracts uuid4().hex (used both for the default revision_id of a
newly created artifact and for a missing payload revision_id).  Payload keys
whose absence makes the Python code raise (and which the orchestrator always
provides) fall back to leaving the task unchanged. -/
def apply_event (now : Nat) (fresh : String) (task0 : Task) (event : Event) : Task :=
  let task := { task0 with updated_at := now }
  if event.type = "task_created" then
    match event.payload.entry_point, event.payload.current_stage with
    | some ep, some cs =>
        { task with
          entry_point := ep,
          entry_data := (event.payload.entry_data).getD {},
          tool_seed := event.payload.tool_seed_payload,
          current_stage := cs,
          completed_stages := (event.payload.completed_stages).getD [],
          status := (event.payload.status).getD "in_progress",
          stage_status := (event.payload.stage_status).getD .initialized,
          trace_root_id := event.payload.trace_root_id }
    | _, _ => task
  else if event.type = "decision_emitted" then
    match event.payload.decision with
    | some d =>
        { task with
          last_decision := some d,
          decision_history := task.decision_history ++ [DHEntry.decision d] }
    | none => task
  else if event.type = "candidates_generated" ∨ event.type = "candidates_regenerated" then
    match event.stage with
    | none => task
    | some stage =>
        let ta := ensure_artifact fresh task stage
        let task := ta.1
        let artifact := ta.2
        let task :=
          match task.conflicts stage with
          | some _ => { task with conflicts := setStage task.conflicts stage (some []) }
          | none => task
        let artifact := { artifact with warnings := [] }
        let task := { task with artifacts := setStage task.artifacts stage (some artifact) }
        let replay : Bool :=
          match event.payload.revision_id with
          | some rid => rid ≠ "" && artifact.revision_id = rid
          | none => false
        if replay then task
        else
          let artifact :=
            if artifact.candidates ≠ [] then
              { artifact with
                history := artifact.history ++
                  [HistoryEntry.revision artifact.revision_id
                    (freeze_candidates artifact.candidates) now event.type] }
            else artifact
          let artifact :=
            { artifact with
              revision_id :=
                match event.payload.revision_id with
                | some rid => if rid ≠ "" then rid else fresh
                | none => fresh,
              candidates := event.payload.candidates }
          let gc :=
            match event.payload.generation_context with
            | some g => some g
            | none =>
                match artifact.candidates with
                | c :: _ => some c.generation_context
                | [] => none
          let artifact :=
            { artifact with
              generation_context := gc.getD {},
              selected_candidate_id := none,
              status := StageStatus.pending_choice }
          let artifact :=
            if event.type = "candidates_regenerated" then
              { artifact with iteration_count := artifact.iteration_count + 1 }
            else artifact
          let task := { task with artifacts := setStage task.artifacts stage (some artifact) }
          let task :=
            { task with stage_status := artifact.status,
                        dialogue_state := DialogueState.selecting }
          append_working_memory task "" (some ("select:" ++ stageValue stage))
  else if event.type = "candidate_selected" then
    match event.stage with
    | none => task
    | some stage =>
        let ta := ensure_artifact fresh task stage
        let task := ta.1
        let artifact := ta.2
        let task :=
          match task.conflicts stage with
          | some _ => { task with conflicts := setStage task.conflicts stage (some []) }
          | none => task
        let sid := event.payload.candidate_id
        let updated := artifact.candidates.map (fun c =>
          if sid = some c.id then { c with status := CandidateStatus.selected }
          else { c with status := CandidateStatus.frozen })
        let artifact := { artifact with selected_candidate_id := sid, candidates := updated }
        let task := { task with artifacts := setStage task.artifacts stage (some artifact) }
        let task := { task with stage_status := artifact.status }
        match sid with
        | some s =>
            if s ≠ "" then
              let task :=
                { task with decision_history := task.decision_history ++
                    [DHEntry.candidateSelected (stageValue stage) s] }
              let note :=
                match updated.find? (fun c => decide (c.id = s)) with
                | some c => summarize_candidate_content c.content
                | none => ""
              append_working_memory task
                ("selected " ++ stageValue stage ++ ": " ++ note)
                (some ("selected:" ++ stageValue stage))
            else task
        | none => task
  else if event.type = "feedback_recorded" then
    match event.stage with
    | none => task
    | some stage =>
        let ta := ensure_artifact fresh task stage
        let task := ta.1
        let artifact := ta.2
        let fb := (event.payload.feedback).getD ""
        let artifact :=
          { artifact with
            status := StageStatus.feedback_loop,
            history := artifact.history ++ [HistoryEntry.feedback now "feedback" fb] }
        let task := { task with artifacts := setStage task.artifacts stage (some artifact) }
        let task :=
          { task with dialogue_state := DialogueState.generating,
                      stage_status := artifact.status }
        append_working_memory task
          ("feedback " ++ stageValue stage ++ ": " ++ fb)
          (some ("feedback:" ++ stageValue stage))
  else if event.type = "conflict_detected" then
    match event.stage with
    | none => task
    | some stage =>
        match event.payload.conflict with
        | none => task
        | some conflict =>
            let conflicts := (task.conflicts stage).getD []
            let task :=
              { task with
                conflicts := setStage task.conflicts stage (some (conflicts ++ [conflict])),
                dialogue_state := DialogueState.conflict_resolution }
            append_working_memory task "" (some ("conflict:" ++ stageValue stage))
  else if event.type = "conflict_resolved" then
    match event.stage with
    | none => task
    | some stage =>
        let conflicts := (task.conflicts stage).getD []
        let updated := conflicts.map (fun c =>
          if some c.conflict_id = event.payload.conflict_id then
            { c with resolved := true, resolved_option := event.payload.option }
          else c)
        let task :=
          { task with
            conflicts := setStage task.conflicts stage (some updated),
            dialogue_state := DialogueState.selecting,
            decision_history := task.decision_history ++
              [DHEntry.conflictResolved (stageValue stage)
                event.payload.conflict_id event.payload.option] }
        append_working_memory task "" (some ("select:" ++ stageValue stage))
  else if event.type = "message_emitted" then
    match event.payload.message with
    | none => task
    | some m =>
        let task := { task with messages := task.messages ++ [m] }
        if m.kind = "entry_decision" then
          match m.entry_decision with
          | some ed =>
              { task with decision_history := task.decision_history ++
                  [DHEntry.entryDecision (entryPointValue ed.chosen_entry_point)
                    ed.rules_hit ed.confidence] }
          | none => task
        else task
  else if event.type = "intent_updated" then
    let task :=
      match event.payload.after with
      | some a =>
          if pyStripStr a ≠ "" then
            let stripped := pyStripStr a
            let cc := { task.creative_context with original_intent := stripped }
            let cc :=
              if stripped ∈ cc.anchor_concepts then cc
              else { cc with anchor_concepts := cc.anchor_concepts ++ [stripped] }
            { task with creative_context := cc }
          else task
      | none => task
    let task :=
      match event.payload.revision with
      | some r =>
          { task with creative_context :=
              { task.creative_context with
                intent_evolution := task.creative_context.intent_evolution ++ [r] } }
      | none => task
    { task with decision_history := task.decision_history ++
        [DHEntry.intentUpdated event.payload.before event.payload.after] }
  else if event.type = "stage_finalized" then
    match event.stage with
    | none => task
    | some stage =>
        let ta := ensure_artifact fresh task stage
        let task := ta.1
        let artifact := { ta.2 with status := StageStatus.finalized }
        let task := { task with artifacts := setStage task.artifacts stage (some artifact) }
        let task :=
          { task with stage_status := StageStatus.finalized,
                      dialogue_state := DialogueState.generating }
        let task :=
          if stage ∈ task.completed_stages then task
          else { task with completed_stages := task.completed_stages ++ [stage] }
        match event.payload.next_stage with
        | some ns =>
            append_working_memory { task with current_stage := ns } ""
              (some ("stage:" ++ stageValue ns))
        | none => append_working_memory task "" (some "stage:completed")
  else if event.type = "stage_redirected" then
    let target :=
      match event.payload.current_stage with
      | some t => some t
      | none => event.stage
    match target with
    | some t =>
        let task :=
          { task with
            current_stage := t,
            stage_status := StageStatus.initialized,
            decision_history := task.decision_history ++
              [DHEntry.requirePrevious (stageValue t)] }
        append_working_memory task "" (some ("stage:" ++ stageValue t))
    | none => task
  else if event.type = "task_completed" then
    { task with status := "completed" }
  else if event.type = "error_raised" then
    { task with status := "error" }
  else task

/-- next_required_stage from src/engine/decision.py. -/
def next_required_stage (task : Task) : Option StageType :=
  STAGE_SEQUENCE.find? (fun s => decide (s ∉ task.completed_stages))

/-- The forward DecisionResult built at the end of make_decision. -/
def forwardDecision (stage_to_check : StageType) (requested_action : Option String) :
    DecisionResult :=
  let reqStr :=
    match requested_action with
    | some r => if r = "" then "none" else r
    | none => "none"
  { next_stage := some stage_to_check,
    direction := "forward",
    explanation := some
      { summary := "Ready to proceed.",
        details := ["Requested action: " ++ reqStr] },
    user_message := "Ready to proceed." }

/-- The stage checked by make_decision: target_stage or task.current_stage
(Python or on a truthy enum).  current_stage is a required non-empty str
enum, hence always truthy, so the next_required_stage fallback and the
no-remaining-stage branch of the source are dead code and the embedding folds
them away. -/
def checkedStage (task : Task) (target_stage : Option StageType) : StageType :=
  match target_stage with
  | some s => s
  | none => task.current_stage

/-- make_decision from src/engine/decision.py. -/
def make_decision (task : Task) (target_stage : Option StageType)
    (requested_action : Option String) : DecisionResult :=
  if task.status = "completed" then
    { next_stage := none, direction := "stay",
      explanation := some { summary := "Task already completed.", details := [] },
      user_message := "Task is already completed." }
  else
    let stage_to_check := checkedStage task target_stage
    match topo_sort_missing_chain stage_to_check task.entry_point task.completed_stages with
    | Except.error e =>
        { next_stage := none, direction := "error",
          explanation := some { summary := e, details := [] },
          user_message := "Dependency cycle detected. Please review the dependency table.",
          constraints := { error := some "dependency_cycle" } }
    | Except.ok missing_chain =>
        match missing_chain with
        | h :: _ =>
            if h ≠ stage_to_check then
              { next_stage := some h,
                direction := "backward_completion",
                explanation := some
                  { summary := "Missing dependencies detected.",
                    details := ["Missing chain: " ++
                      String.intercalate ", " (missing_chain.map stageValue)] },
                user_message := "Please complete prerequisite stages first.",
                constraints := { missing_chain := some (missing_chain.map stageValue) } }
            else forwardDecision stage_to_check requested_action
        | [] => forwardDecision stage_to_check requested_action

/-- The best-so-far loop of Orchestrator._recommend_candidate: a candidate
replaces the current best only when its alignment_score is strictly
greater. -/
def recommendAux (best : Option Candidate) : List Candidate → Option Candidate
  | [] => best
  | c :: cs =>
      match best with
      | none => recommendAux (some c) cs
      | some b =>
          if b.alignment_score < c.alignment_score then recommendAux (some c) cs
          else recommendAux (some b) cs

/-- Orchestrator._recommend_candidate from src/services/orchestrator.py. -/
def recommend_candidate (artifact : Option StageArtifact) : Option Candidate :=
  match artifact with
  | none => none
  | some art =>
      if art.candidates = [] then none
      else recommendAux none art.candidates

/-- Python task.conflicts.get(stage, []). -/
def conflictsFor (task : Task) (stage : StageType) : List Conflict :=
  (task.conflicts stage).getD []

/-- Orchestrator._can_finalize from src/services/orchestrator.py. -/
def can_finalize (task : Task) (stage : StageType) : Bool :=
  match task.artifacts stage with
  | none => false
  | some art =>
      match art.selected_candidate_id with
      | none => false
      | some sid =>
          if sid = "" then false
          else
            match art.candidates.find? (fun c => decide (c.id = sid)) with
            | none => false
            | some c =>
                if c.status ≠ CandidateStatus.selected then false
                else (conflictsFor task stage).all (fun cf =>
                  !(cf.severity = ConflictSeverity.blocking && cf.resolved = false))

/-- A word character for normalize_text: the Python pattern removes every
character outside backslash-w and the CJK block U+4E00 to U+9FFF; the
embedding restricts backslash-w to its ASCII part. -/
def isWordChar (c : Char) : Bool :=
  c.isAlphanum || c = '_' || (0x4e00 ≤ c.toNat && c.toNat ≤ 0x9fff)

/-- normalize_text from src/generators/diversity.py (lowercase, then drop
non-word characters). -/
def normalize_text (text : String) : String :=
  if text = "" then ""
  else String.mk ((text.toList.map Char.toLower).filter isWordChar)

/-- The character n-gram set of src/generators/diversity.py with n = 3. -/
def ngrams (cs : List Char) : Finset (List Char) :=
  if cs = [] then ∅
  else if cs.length ≤ 3 then {cs}
  else ((List.range (cs.length - 3 + 1)).map (fun i => (cs.drop i).take 3)).toFinset

/-- similarity from src/generators/diversity.py: the Jaccard measure of the
3-gram sets of the normalized texts.  Python floats are modelled as exact
rationals. -/
def similarity (a b : String) : Rat :=
  let na := (normalize_text a).toList
  let nb := (normalize_text b).toList
  if na = [] ∨ nb = [] then 0
  else
    let ga := ngrams na
    let gb := ngrams nb
    if ga.card = 0 ∨ gb.card = 0 then 0
    else mkRat ((ga ∩ gb).card) (max (ga ∪ gb).card 1)

/-- The default duplicate threshold 0.85 of src/generators/diversity.py
(17/20 as an exact rational). -/
def DUPLICATE_THRESHOLD : Rat := mkRat 17 20

/-- is_duplicate from src/generators/diversity.py at the default
threshold. -/
def is_duplicate (text : String) (existing : List String) : Bool :=
  if normalize_text text = "" then true
  else existing.any (fun e => decide (DUPLICATE_THRESHOLD ≤ similarity text e))

/-- Bool substring check embedding the Python in operator on strings. -/
def infixCheck (needle : List Char) : List Char → Bool
  | [] => needle.isEmpty
  | c :: t => needle.isPrefixOf (c :: t) || infixCheck needle t

/-- Python: needle in hay (substring containment). -/
def pyContains (hay needle : String) : Bool :=
  infixCheck needle.toList hay.toList

/-- Python: a or b on strings (first truthy). -/
def strOr (a b : String) : String :=
  if a = "" then b else a

/-- ValidationResult from src/validators/base.py. -/
structure ValidationResult where
  warnings : List String := []
  conflicts : List Conflict := []
  recommendation : Option String := none
deriving DecidableEq, Repr

/-- validate_non_empty from src/validators/simple.py. -/
def validate_non_empty (candidates : List Candidate) : ValidationResult :=
  if candidates = [] then { warnings := ["No candidates generated."] }
  else {}

/-- The three marker groups accepted as sufficient question-chain alignment
in src/validators/activity_alignment.py. -/
def markerGroups : List (List String) :=
  [["子问题1", "Sub-question 1", "Q1"],
   ["子问题2", "Sub-question 2", "Q2"],
   ["子问题3", "Sub-question 3", "Q3"]]

/-- The topic keyword of the activity-alignment validator:
constraints topic, else user_intent, else tool_name (Python or-chain). -/
def topicKeywordOf (ts : ToolSeed) : String :=
  strOr ((ts.constraints.topic).getD "") (strOr ts.user_intent ts.tool_name)

/-- The missing_topic flag of validate_activity_alignment: a truthy topic
keyword absent from the activity text. -/
def topicCheckFails (ts : ToolSeed) (activity_text : String) : Bool :=
  topicKeywordOf ts ≠ "" && !(pyContains activity_text (topicKeywordOf ts))

/-- The missing_chain flag of validate_activity_alignment: a non-empty
question chain with no truthy sub-question literally contained in the
activity text and the three marker groups not all present. -/
def chainCheckFails (question_chain : List String) (activity_text : String) : Bool :=
  decide (question_chain ≠ []) &&
  decide ((question_chain.filter (fun q => q ≠ "" && pyContains activity_text q)) = []) &&
  !(markerGroups.all (fun grp => grp.any (fun tok => pyContains activity_text tok)))

/-- The missing_constraints flag of validate_activity_alignment: truthy
declared tool constraints absent from the activity text. -/
def toolConstraintsFail (ts : ToolSeed) (activity_text : String) : Bool :=
  ((ts.constraints.tool_constraints).getD "") ≠ "" &&
  !(pyContains activity_text ((ts.constraints.tool_constraints).getD ""))

/-- validate_activity_alignment from src/validators/activity_alignment.py.
The three local flags of the source (missing_topic, missing_chain,
missing_constraints) are hoisted into the named checks above, which condense
the source's nested ifs; the warning for each check is appended exactly when
its flag is set, as in the source.  fresh abstracts the uuid4().hex default
of the emitted Conflict's conflict_id. -/
def validate_activity_alignment (fresh : String) (tool_seed : ToolSeed)
    (question_chain : List String) (activity_text : String) : ValidationResult :=
  let missing_topic := topicCheckFails tool_seed activity_text
  let warnings :=
    if missing_topic then ["Activity does not mention the topic keyword."] else []
  let missing_chain := chainCheckFails question_chain activity_text
  let warnings :=
    if missing_chain then warnings ++ ["Activity does not reflect the question chain."]
    else warnings
  let missing_constraints := toolConstraintsFail tool_seed activity_text
  let warnings :=
    if missing_constraints then warnings ++ ["Activity does not mention tool constraints."]
    else warnings
  if warnings = [] then {}
  else
    let severity :=
      if missing_topic && missing_chain then ConflictSeverity.blocking
      else if missing_topic || missing_chain then ConflictSeverity.warning
      else ConflictSeverity.info
    { conflicts :=
        [{ conflict_id := fresh,
           stage := StageType.activity,
           severity := severity,
           summary := "Activity alignment with tool_seed/question_chain is insufficient.",
           warnings := warnings,
           conflict_options :=
             [⟨"A", "Adjust tool_seed parameters",
               "Modify tool_seed topic, constraints, or context to fit the activity."⟩,
              ⟨"B", "Select a different question chain",
               "Choose or regenerate a question_chain that matches the activity."⟩,
              ⟨"C", "Generate a compromise plan",
               "Produce a compromise plan and note the trade-offs."⟩],
           recommendation :=
             "Align the question chain and topic first, then refine activity details." }] }

/-- Splitting a character list on a separator character (Python
str.splitlines for newline-separated text; universal line endings other than
a bare newline differ only by a carriage return, which the subsequent strip
removes). -/
def splitOnChar (sep : Char) : List Char → List (List Char)
  | [] => [[]]
  | c :: t =>
      match splitOnChar sep t with
      | [] => [[]]
      | line :: rest =>
          if c = sep then [] :: line :: rest else (c :: line) :: rest

/-- The numbered-line pattern of parse_question_chain: one or more digits,
one of period, closing parenthesis or the ideographic comma, optional
whitespace, then a non-empty remainder (the regex group, already free of
trailing whitespace because the line was stripped). -/
def parseNumberedLine (cs : List Char) : Option (List Char) :=
  let digits := cs.takeWhile Char.isDigit
  let rest := cs.dropWhile Char.isDigit
  if digits = [] then none
  else
    match rest with
    | [] => none
    | m :: r =>
        if m = '.' ∨ m = ')' ∨ m = '、' then
          let body := r.dropWhile isBlankChar
          if body = [] then none else some body
        else none

/-- The bullet-line pattern of parse_question_chain: a dash or asterisk, at
least one whitespace character, then a non-empty remainder. -/
def parseBulletLine (cs : List Char) : Option (List Char) :=
  match cs with
  | [] => none
  | m :: r =>
      if m = '-' ∨ m = '*' then
        match r with
        | [] => none
        | c :: _ =>
            if isBlankChar c then
              let body := r.dropWhile isBlankChar
              if body = [] then none else some body
            else none
      else none

/-- One loop iteration of parse_question_chain: strip the line, skip blanks,
try the numbered pattern then the bullet pattern. -/
def parseChainLine (raw : List Char) : Option String :=
  let cleaned := pyStrip raw
  if cleaned = [] then none
  else
    match parseNumberedLine cleaned with
    | some g => some (String.mk (pyStrip g))
    | none =>
        match parseBulletLine cleaned with
        | some g => some (String.mk (pyStrip g))
        | none => none

/-- parse_question_chain from src/utils/question_chain.py. -/
def parse_question_chain (text : String) : List String :=
  if text = "" then []
  else (splitOnChar '\n' text.toList).filterMap parseChainLine

/-- The question_chain value of a raw LM option dict, after extract_json and
normalize_options: a JSON list of strings, a string (to be parsed), an absent
key, or a value of any other shape. -/
inductive QCVal where
  | listVal (l : List String)
  | strVal (s : String)
  | noneVal
  | otherVal
deriving DecidableEq, Repr

/-- A raw option dict as consumed by the question_chain and driving_question
generators: the keys the embedded code reads. -/
structure RawOption where
  driving_question : Option String := none
  title : Option String := none
  question_chain : QCVal := QCVal.noneVal
deriving DecidableEq, Repr

/-- The question list extracted from a raw option (QuestionChainGenerator /
DrivingQuestionGenerator.generate: a string is parsed, a non-list becomes the
empty list). -/
def rawQuestionsOf (raw : RawOption) : List String :=
  match raw.question_chain with
  | QCVal.listVal l => l
  | QCVal.strVal s => parse_question_chain s
  | QCVal.noneVal => []
  | QCVal.otherVal => []

/-- The truncate-or-pad step shared by both question-bearing generators: at
least three questions are cut to the first three, fewer are padded with the
placeholder until the length is three. -/
def padOrTruncateQuestions (placeholder : String) (questions : List String) :
    List String :=
  if 3 ≤ questions.length then questions.take 3
  else questions ++ List.replicate (3 - questions.length) placeholder

/-- Candidate id letters A, B, C, ... assigned by emission order
(chr(65 + index)). -/
def candidateIdOf (idx : Nat) : String :=
  String.mk [Char.ofNat (65 + idx)]

/-- QuestionChainGenerator._option_text from
src/generators/stages/question_chain.py. -/
def qcOptionText (raw : RawOption) : String :=
  match raw.question_chain with
  | QCVal.listVal l => String.intercalate " " (l.filter (fun s => s ≠ ""))
  | QCVal.strVal s => s
  | QCVal.noneVal => ""
  | QCVal.otherVal => ""

/-- DrivingQuestionGenerator._option_text from
src/generators/stages/driving_question.py. -/
def dqOptionText (raw : RawOption) : String :=
  let dq := strOr ((raw.driving_question).getD "") ((raw.title).getD "")
  let chainText :=
    match raw.question_chain with
    | QCVal.listVal l => String.intercalate " " (l.filter (fun s => s ≠ ""))
    | QCVal.strVal s => s
    | QCVal.noneVal => ""
    | QCVal.otherVal => ""
  pyStripStr (dq ++ " " ++ chainText)

/-- The candidate-building loop of QuestionChainGenerator.generate for one
enumerated raw option.  gctx abstracts the ambient generation context
(based_on, constraints_applied from the tool seed, timestamp). -/
def qcBuildCandidate (gctx : GenerationContext) (idx : Nat) (raw : RawOption) :
    Candidate :=
  let questions := padOrTruncateQuestions "TBD: add a sub-question." (rawQuestionsOf raw)
  let title :=
    match questions with
    | q :: _ => q
    | [] => "Question Chain " ++ candidateIdOf idx
  { id := candidateIdOf idx,
    title := title,
    status := CandidateStatus.generated,
    content := [("question_chain", ContentValue.list questions)],
    rationale := "",
    derived_from := ["driving_question"],
    alignment_score := 0,
    generation_context := gctx }

/-- The enumerated candidate-building loop of QuestionChainGenerator.generate
(after _ensure_unique). -/
def qcBuildCandidates (gctx : GenerationContext) (idx : Nat) :
    List RawOption → List Candidate
  | [] => []
  | raw :: rest => qcBuildCandidate gctx idx raw :: qcBuildCandidates gctx (idx + 1) rest

/-- The candidate-building loop of DrivingQuestionGenerator.generate for one
enumerated raw option. -/
def dqBuildCandidate (gctx : GenerationContext) (idx : Nat) (raw : RawOption) :
    Candidate :=
  let dq := strOr ((raw.driving_question).getD "") ((raw.title).getD "")
  let questions :=
    padOrTruncateQuestions "TBD: add an investigable sub-question." (rawQuestionsOf raw)
  { id := candidateIdOf idx,
    title := strOr dq ("Driving Question " ++ candidateIdOf idx),
    status := CandidateStatus.generated,
    content := [("driving_question", ContentValue.str dq),
                ("question_chain", ContentValue.list questions)],
    rationale := "",
    derived_from := ["scenario"],
    alignment_score := 0,
    generation_context := gctx }

/-- The enumerated candidate-building loop of
DrivingQuestionGenerator.generate (after _ensure_unique). -/
def dqBuildCandidates (gctx : GenerationContext) (idx : Nat) :
    List RawOption → List Candidate
  | [] => []
  | raw :: rest => dqBuildCandidate gctx idx raw :: dqBuildCandidates gctx (idx + 1) rest

/-- The two-retry replacement loop inside _ensure_unique (for range(2)), for
one duplicate slot.  gen is the LM oracle: gen k is the option list returned
by the k-th _invoke_options call of the surrounding generation, so any LM
behaviour is covered.  On success it returns the replacement, its primary
text, the next call index and the grown seen list. -/
def retrySlot {α : Type} (optionText : α → String) (errDup : String)
    (gen : Nat → List α) :
    Nat → Nat → List String → Except String (α × String × Nat × List String)
  | _, 0, _ => Except.error errDup
  | k, Nat.succ tries, seen =>
      match gen k with
      | [] => retrySlot optionText errDup gen (k + 1) tries seen
      | cand :: _ =>
          let ctext := optionText cand
          if is_duplicate ctext seen then
            retrySlot optionText errDup gen (k + 1) tries (seen ++ [ctext])
          else Except.ok (cand, ctext, k + 1, seen)

/-- The first phase of _ensure_unique: the for-loop over the initially
returned raw options, breaking once count options are kept and replacing
duplicates through retrySlot. -/
def ensureUniqueLoop {α : Type} (optionText : α → String) (errDup : String)
    (gen : Nat → List α) (count : Nat) :
    List α → List α → Nat → List String → Except String (List α × Nat × List String)
  | [], unique, k, seen => Except.ok (unique, k, seen)
  | raw :: rest, unique, k, seen =>
      if count ≤ unique.length then Except.ok (unique, k, seen)
      else
        let text := optionText raw
        if is_duplicate text seen then
          match retrySlot optionText errDup gen k 2 seen with
          | Except.error e => Except.error e
          | Except.ok (cand, ctext, k2, seen2) =>
              ensureUniqueLoop optionText errDup gen count rest
                (unique ++ [cand]) k2 (seen2 ++ [ctext])
        else
          ensureUniqueLoop optionText errDup gen count rest
            (unique ++ [raw]) k (seen ++ [text])

/-- The body of the second phase of _ensure_unique, structurally recursive
on the number of remaining iterations: the while-loop runs exactly
count - length(unique) times since every iteration either appends one option
or fails, so the gas argument is count - length(unique) throughout. -/
def ensureUniqueFillAux {α : Type} (optionText : α → String) (errDup errIns : String)
    (gen : Nat → List α) :
    Nat → List α → Nat → List String → Except String (List α × Nat × List String)
  | 0, unique, k, seen => Except.ok (unique, k, seen)
  | Nat.succ gas, unique, k, seen =>
      match gen k with
      | [] => Except.error errIns
      | cand :: _ =>
          let ctext := optionText cand
          if is_duplicate ctext seen then Except.error errDup
          else
            ensureUniqueFillAux optionText errDup errIns gen gas
              (unique ++ [cand]) (k + 1) (seen ++ [ctext])

/-- The second phase of _ensure_unique: the while-loop regenerating
one-at-a-time until count options are kept, failing on an empty oracle
answer or a duplicate. -/
def ensureUniqueFill {α : Type} (optionText : α → String) (errDup errIns : String)
    (gen : Nat → List α) (count : Nat) (unique : List α) (k : Nat)
    (seen : List String) : Except String (List α × Nat × List String) :=
  ensureUniqueFillAux optionText errDup errIns gen (count - unique.length)
    unique k seen

/-- The generic shape of _ensure_unique as duplicated verbatim in
src/generators/stages/question_chain.py and
src/generators/stages/driving_question.py, differing only in the option-text
extractor and the error-message tag. -/
def ensure_unique {α : Type} (optionText : α → String) (errDup errIns : String)
    (gen : Nat → List α) (rawOptions : List α) (count : Nat)
    (avoid : List String) : Except String (List α) :=
  match ensureUniqueLoop optionText errDup gen count rawOptions [] 0 avoid with
  | Except.error e => Except.error e
  | Except.ok (unique, k, seen) =>
      match ensureUniqueFill optionText errDup errIns gen count unique k seen with
      | Except.error e => Except.error e
      | Except.ok (unique, _, _) => Except.ok unique

/-- QuestionChainGenerator._ensure_unique from
src/generators/stages/question_chain.py. -/
def qc_ensure_unique (gen : Nat → List RawOption) (rawOptions : List RawOption)
    (count : Nat) (avoid : List String) : Except String (List RawOption) :=
  ensure_unique qcOptionText
    "Duplicate candidates detected for question_chain"
    "Insufficient candidates for question_chain"
    gen rawOptions count avoid

/-- DrivingQuestionGenerator._ensure_unique from
src/generators/stages/driving_question.py. -/
def dq_ensure_unique (gen : Nat → List RawOption) (rawOptions : List RawOption)
    (count : Nat) (avoid : List String) : Except String (List RawOption) :=
  ensure_unique dqOptionText
    "Duplicate candidates detected for driving_question"
    "Insufficient candidates for driving_question"
    gen rawOptions count avoid

/-- QuestionChainGenerator.generate from
src/generators/stages/question_chain.py, downstream of the LM invocation:
gen 0 models the initial _invoke_options result and gen (k+1) the k-th
retry invocation; the prompt-building and LM plumbing are I/O. -/
def qcGenerate (gen : Nat → List RawOption) (gctx : GenerationContext)
    (count : Nat) (avoid : List String) : Except String (List Candidate) :=
  match qc_ensure_unique (fun k => gen (k + 1)) (gen 0) count avoid with
  | Except.error e => Except.error e
  | Except.ok raws => Except.ok (qcBuildCandidates gctx 0 raws)

/-- DrivingQuestionGenerator.generate from
src/generators/stages/driving_question.py, downstream of the LM
invocation. -/
def dqGenerate (gen : Nat → List RawOption) (gctx : GenerationContext)
    (count : Nat) (avoid : List String) : Except String (List Candidate) :=
  match dq_ensure_unique (fun k => gen (k + 1)) (gen 0) count avoid with
  | Except.error e => Except.error e
  | Except.ok raws => Except.ok (dqBuildCandidates gctx 0 raws)

/-- The result triple of Orchestrator.create_task / apply_action. -/
structure ActionResult where
  task : Task
  decision : DecisionResult
  artifact : Option StageArtifact

/-- Orchestrator._emit_decision from src/services/orchestrator.py: apply the
decision_emitted event, then a message_emitted event whose text comes from
build_decision_message (an LM call, abstracted as msgOracle). -/
def emit_decision (msgOracle : Task → DecisionResult → String) (now : Nat)
    (fresh : String) (task : Task) (decision : DecisionResult) : Task :=
  let task := apply_event now fresh task
    { type := "decision_emitted", stage := some task.current_stage,
      payload := { decision := some decision } }
  let message : Message :=
    { role := "assistant", text := msgOracle task decision,
      stage := some task.current_stage, kind := "decision", timestamp := now }
  apply_event now fresh task
    { type := "message_emitted", stage := some task.current_stage,
      payload := { message := some message } }

/-- Orchestrator._apply_candidates from src/services/orchestrator.py: emit a
candidates_generated / candidates_regenerated event whose revision_id is a
fresh uuid (the fresh parameter). -/
def apply_candidates (now : Nat) (fresh : String) (task : Task)
    (stage : StageType) (candidates : List Candidate) (regenerate : Bool) : Task :=
  let event_type := if regenerate then "candidates_regenerated" else "candidates_generated"
  let gc :=
    match candidates with
    | c :: _ => c.generation_context
    | [] => {}
  apply_event now fresh task
    { type := event_type, stage := some stage,
      payload := { revision_id := some fresh, candidates := candidates,
                   generation_context := some gc } }

/-- The selected candidate's question_chain content for a stage, as read by
Orchestrator._run_validators (empty when the stage, the selection or the key
is missing; a non-list value under the key never occurs for generator-built
candidates). -/
def selectedContentChain (task : Task) (st : StageType) : List String :=
  match task.artifacts st with
  | none => []
  | some art =>
      match art.candidates.find? (fun c => art.selected_candidate_id = some c.id) with
      | some cand =>
          match lookupContent cand.content "question_chain" with
          | some (ContentValue.list l) => l
          | _ => []
      | none => []

/-- Orchestrator._run_validators from src/services/orchestrator.py: extend
the artifact's warnings from the non-empty validator, run the
activity-alignment validator for a selected activity candidate under a
tool_seed entry, and apply a conflict_detected event per emitted conflict.
The ToolSeed(**task.entry_data) fallback is modelled by the tool_seed
component of entry_data. -/
def run_validators (freshConf : String) (now : Nat) (fresh : String)
    (task : Task) (stage : StageType) (candidates : List Candidate) : Task :=
  let validation := validate_non_empty candidates
  let task :=
    if validation.warnings ≠ [] then
      match task.artifacts stage with
      | some art =>
          let newArt := { art with warnings := art.warnings ++ validation.warnings }
          { task with artifacts := setStage task.artifacts stage (some newArt) }
      | none => task
    else task
  let conflicts :=
    if stage = StageType.activity ∧ candidates ≠ [] ∧
        task.entry_point = EntryPoint.tool_seed then
      let tool_seed :=
        match task.tool_seed with
        | some ts => some ts
        | none => task.entry_data.tool_seed
      let q1 := selectedContentChain task StageType.question_chain
      let qchain :=
        if q1 ≠ [] then q1 else selectedContentChain task StageType.driving_question
      let candidate_to_validate :=
        match task.artifacts stage with
        | some art =>
            match art.selected_candidate_id with
            | some sel =>
                if sel ≠ "" then
                  art.candidates.find? (fun (c : Candidate) => decide (c.id = sel))
                else none
            | none => none
        | none => none
      let activity_text :=
        match candidate_to_validate with
        | some c =>
            match lookupContent c.content "activity" with
            | some (ContentValue.str s) => s
            | _ => ""
        | none => ""
      match tool_seed, candidate_to_validate with
      | some ts, some _ =>
          (validate_activity_alignment freshConf ts qchain activity_text).conflicts
      | _, _ => []
    else []
  conflicts.foldl
    (fun t c => apply_event now fresh t
      { type := "conflict_detected", stage := some stage,
        payload := { conflict := some c } })
    task

/-- The force_exit DecisionResult built identically in the provide_feedback
and regenerate_candidates branches of Orchestrator.apply_action. -/
def force_exit_decision (stage : StageType) (artifact : StageArtifact) :
    DecisionResult :=
  match recommend_candidate (some artifact) with
  | some rec =>
      { next_stage := some stage,
        direction := "force_exit",
        explanation := some
          { summary := "Maximum iterations reached.",
            details := ["MAX_ITERATIONS=10",
              "Recommended: " ++ rec.id ++ " - " ++ rec.title] },
        user_message := "Iteration limit reached. Recommended candidate " ++
          rec.id ++ ": " ++ rec.title ++ ". Please confirm selection.",
        constraints :=
          { force_exit := true,
            recommended_candidate_id := some rec.id,
            recommended_title := some rec.title,
            recommended_alignment_score := some rec.alignment_score } }
  | none =>
      { next_stage := some stage,
        direction := "force_exit",
        explanation := some
          { summary := "Maximum iterations reached.",
            details := ["MAX_ITERATIONS=10"] },
        user_message := "Iteration limit reached. Please select a candidate to proceed.",
        constraints := { force_exit := true } }

/-- Modelled from the spec: require_previous_stage from engine/flow_nodes.py,
which is absent from src.  Per spec section 4.9.1 a missing-chain head that
differs from the target stage yields a backward_completion decision carrying
the missing chain. -/
def require_previous_decision (missing : List StageType) : DecisionResult :=
  { next_stage := missing.head?,
    direction := "backward_completion",
    explanation := some { summary := "Missing dependencies detected.", details := [] },
    user_message := "Please complete prerequisite stages first.",
    constraints := { missing_chain := some (missing.map stageValue) } }

/-- The shared generate-then-validate continuation of the provide_feedback
and regenerate_candidates branches of Orchestrator.apply_action.  genOracle
abstracts the stage generator (an LM call); the count 3 is the default
candidate count of the candidate_stage_node command (flow_nodes is absent
from src; the spec fixes generators to several alternatives with default
count 3, matching the generate signature default). -/
def regen_and_validate (genOracle : StageType → Option String → Nat → List Candidate)
    (msgOracle : Task → DecisionResult → String) (now : Nat)
    (fresh freshConf : String) (task : Task) (stage : StageType)
    (feedback : Option String) (actionName : String) : ActionResult :=
  let candidates := genOracle stage feedback 3
  let task := apply_candidates now fresh task stage candidates true
  let task := run_validators freshConf now fresh task stage candidates
  let decision := make_decision task (some stage) (some actionName)
  let task := emit_decision msgOracle now fresh task decision
  { task := task, decision := decision, artifact := task.artifacts stage }

/-- The provide_feedback and regenerate_candidates branches of
Orchestrator.apply_action from src/services/orchestrator.py, after the
dependency check.  The artifact binding from before the feedback_recorded
event decides the Python None-check, while the iteration count and the
recommendation are read from the live (post-event) artifact object. -/
def feedback_or_regen_branch
    (genOracle : StageType → Option String → Nat → List Candidate)
    (msgOracle : Task → DecisionResult → String) (now : Nat)
    (fresh freshConf : String) (task : Task) (action : ActionType)
    (stage : StageType) (payloadFeedback : Option String) :
    Except String ActionResult :=
  if action = ActionType.provide_feedback then
    let feedback := payloadFeedback.getD ""
    let task1 := apply_event now fresh task
      { type := "feedback_recorded", stage := some stage,
        payload := { feedback := some feedback } }
    match task.artifacts stage, task1.artifacts stage with
    | some _, some artLive =>
        if should_force_exit artLive.iteration_count then
          let decision := force_exit_decision stage artLive
          let task2 := emit_decision msgOracle now fresh task1 decision
          Except.ok { task := task2, decision := decision,
                      artifact := task2.artifacts stage }
        else
          Except.ok (regen_and_validate genOracle msgOracle now fresh freshConf
            task1 stage (some feedback) "provide_feedback")
    | _, _ =>
        Except.ok (regen_and_validate genOracle msgOracle now fresh freshConf
          task1 stage (some feedback) "provide_feedback")
  else if action = ActionType.regenerate_candidates then
    match task.artifacts stage with
    | some art =>
        if should_force_exit art.iteration_count then
          let decision := force_exit_decision stage art
          let task2 := emit_decision msgOracle now fresh task decision
          Except.ok { task := task2, decision := decision,
                      artifact := task2.artifacts stage }
        else
          Except.ok (regen_and_validate genOracle msgOracle now fresh freshConf
            task stage payloadFeedback "regenerate_candidates")
    | none =>
        Except.ok (regen_and_validate genOracle msgOracle now fresh freshConf
          task stage payloadFeedback "regenerate_candidates")
  else Except.error "action outside the embedded slice"

/-- Orchestrator.apply_action from src/services/orchestrator.py, embedded for
the provide_feedback and regenerate_candidates actions: the store lookup,
inactivity reminder, tracing and SSE publication are I/O and omitted; the
dependency_check_node of the absent engine/flow_nodes.py is modelled from the
spec (section 4.9.1) as topo_sort_missing_chain with its cycle error; the
select_candidate, finalize_stage and resolve_conflict branches are outside
the embedded slice. -/
def apply_action_slice
    (genOracle : StageType → Option String → Nat → List Candidate)
    (msgOracle : Task → DecisionResult → String) (now : Nat)
    (fresh freshConf : String) (task : Task) (action : ActionType)
    (payloadStage : Option StageType) (payloadFeedback : Option String) :
    Except String ActionResult :=
  let stage := payloadStage.getD task.current_stage
  let allowed :=
    match task.artifacts stage with
    | some art => can_apply_action art.status action
    | none => true
  if !allowed then Except.error "Action not allowed in current stage status"
  else
    match topo_sort_missing_chain stage task.entry_point task.completed_stages with
    | Except.error e =>
        let decision : DecisionResult :=
          { next_stage := none, direction := "error",
            explanation := some { summary := e, details := [] },
            user_message := "Dependency cycle detected. Please review the dependency table.",
            constraints := { error := some "dependency_cycle" } }
        let task := emit_decision msgOracle now fresh task decision
        let task := apply_event now fresh task
          { type := "error_raised", stage := some stage, payload := {} }
        Except.ok { task := task, decision := decision, artifact := task.artifacts stage }
    | Except.ok missing =>
        match missing with
        | m0 :: _ =>
            if m0 ≠ stage then
              let decision := require_previous_decision missing
              let task := emit_decision msgOracle now fresh task decision
              let task := apply_event now fresh task
                { type := "stage_redirected", stage := some m0,
                  payload := { current_stage := some m0 } }
              Except.ok { task := task, decision := decision,
                          artifact := task.artifacts m0 }
            else
              feedback_or_regen_branch genOracle msgOracle now fresh freshConf
                task action stage payloadFeedback
        | [] =>
            feedback_or_regen_branch genOracle msgOracle now fresh freshConf
              task action stage payloadFeedback

/-- Position of a stage in a stage list (first occurrence), used to state
order properties of the missing chain. -/
def idxOfStage (x : StageType) : List StageType → Nat
  | [] => 0
  | y :: t => if y = x then 0 else idxOfStage x t + 1

/-- Bool success test for the embedded topo sort. -/
def topoOkB (t : StageType) (ep : EntryPoint) (f : StageType → Bool) : Bool :=
  match topoSortMissingChainB t ep f with
  | Except.ok _ => true
  | Except.error _ => false

/-- Bool check bundling the C4 chain properties for one target, entry point
and completed-membership function: chain members are not completed, every
not-completed prerequisite of a chain member appears strictly earlier, and a
not-completed target closes the chain. -/
def chainPropsCheck (t : StageType) (ep : EntryPoint) (f : StageType → Bool) : Bool :=
  match topoSortMissingChainB t ep f with
  | Except.error _ => true
  | Except.ok chain =>
      chain.all (fun s => !(f s)) &&
      chain.all (fun s =>
        ((compute_required_deps s ep).filter (fun d => !(f d))).all
          (fun d => decide (d ∈ chain) &&
            decide (idxOfStage d chain < idxOfStage s chain))) &&
      (f t || (decide (chain ≠ []) && decide (chain.getLast? = some t)))

/-- A completed-membership function from its six values, used to enumerate
the function space in decidable checks. -/
def mkCompleted (b1 b2 b3 b4 b5 b6 : Bool) : StageType → Bool :=
  fun s =>
    match s with
    | .tool_seed => b1
    | .scenario => b2
    | .driving_question => b3
    | .question_chain => b4
    | .activity => b5
    | .experiment => b6

/-- Every completed-membership function is an mkCompleted instance. -/
theorem mkCompleted_surj (f : StageType → Bool) :
    f = mkCompleted (f .tool_seed) (f .scenario) (f .driving_question)
      (f .question_chain) (f .activity) (f .experiment) := by
  funext s
  cases s <;> rfl

set_option maxHeartbeats 3200000 in
/-- The dependency tables are acyclic and small: the embedded DFS always
succeeds, whatever the completed set (checked over the enumerated
function space). -/
theorem topoOkB_all_mk :
    ∀ (b1 b2 b3 b4 b5 b6 : Bool) (t : StageType) (ep : EntryPoint),
      topoOkB t ep (mkCompleted b1 b2 b3 b4 b5 b6) = true := by decide

/-- The embedded DFS always succeeds, for any membership function. -/
theorem topoOkB_all (t : StageType) (ep : EntryPoint) (f : StageType → Bool) :
    topoOkB t ep f = true := by
  rw [mkCompleted_surj f]
  exact topoOkB_all_mk _ _ _ _ _ _ t ep

set_option maxHeartbeats 3200000 in
/-- The C4 chain properties hold over the enumerated function space. -/
theorem chainPropsCheck_all_mk :
    ∀ (b1 b2 b3 b4 b5 b6 : Bool) (t : StageType) (ep : EntryPoint),
      chainPropsCheck t ep (mkCompleted b1 b2 b3 b4 b5 b6) = true := by decide

/-- The C4 chain properties hold for every target, entry point and completed
set. -/
theorem chainPropsCheck_all (t : StageType) (ep : EntryPoint) (f : StageType → Bool) :
    chainPropsCheck t ep f = true := by
  rw [mkCompleted_surj f]
  exact chainPropsCheck_all_mk _ _ _ _ _ _ t ep

/-- topo_sort_missing_chain never raises on the static dependency tables. -/
theorem topo_sort_ok (t : StageType) (ep : EntryPoint) (completed : List StageType) :
    ∃ chain, topo_sort_missing_chain t ep completed = Except.ok chain := by
  have h := topoOkB_all t ep (fun s => decide (s ∈ completed))
  unfold topoOkB at h
  unfold topo_sort_missing_chain
  cases hx : topoSortMissingChainB t ep (fun s => decide (s ∈ completed)) with
  | ok chain => exact ⟨chain, rfl⟩
  | error e => rw [hx] at h; simp at h

/-- C10: the static dependency tables form an acyclic graph, so
topo_sort_missing_chain always terminates normally (its cycle-error branch is
unreachable for every target, entry point and completed list), and
consequently make_decision never returns direction error: every decision
direction is stay, backward_completion or forward. -/
theorem C10_acyclic_no_error_direction :
    (∀ (t : StageType) (ep : EntryPoint) (completed : List StageType),
        ∃ chain, topo_sort_missing_chain t ep completed = Except.ok chain) ∧
    (∀ (task : Task) (target : Option StageType) (req : Option String),
        (make_decision task target req).direction ∈
          (["stay", "backward_completion", "forward"] : List String)) := by
  refine ⟨topo_sort_ok, ?_⟩
  intro task target req
  unfold make_decision
  by_cases hst : task.status = "completed"
  · simp [hst]
  · simp only [hst, if_false]
    obtain ⟨chain, hok⟩ :=
      topo_sort_ok (checkedStage task target) task.entry_point task.completed_stages
    rw [hok]
    match chain with
    | [] => simp [forwardDecision]
    | h :: t =>
        by_cases hh : h ≠ checkedStage task target
        · simp [hh]
        · simp [hh, forwardDecision]

/-- C4: for every target stage, entry point and completed list, the missing
chain returned by topo_sort_missing_chain consists of not-yet-completed
stages in depth-first topological order: every chain member is absent from
completed, each member's not-completed prerequisites (per the static
dependency tables under that entry point) appear strictly earlier in the
chain, and a not-completed target is the last element. -/
theorem C4_missing_chain_correct :
    ∀ (target : StageType) (ep : EntryPoint) (completed : List StageType)
      (chain : List StageType),
      topo_sort_missing_chain target ep completed = Except.ok chain →
      (∀ s ∈ chain, s ∉ completed) ∧
      (∀ s ∈ chain, ∀ d ∈ compute_required_deps s ep, d ∉ completed →
          d ∈ chain ∧ idxOfStage d chain < idxOfStage s chain) ∧
      (target ∉ completed → chain ≠ [] ∧ chain.getLast? = some target) := by
  intro target ep completed chain h
  have hc := chainPropsCheck_all target ep (fun s => decide (s ∈ completed))
  unfold chainPropsCheck at hc
  unfold topo_sort_missing_chain at h
  rw [h] at hc
  simp only [Bool.and_eq_true, List.all_eq_true, Bool.not_eq_true',
    decide_eq_false_iff_not, Bool.or_eq_true, decide_eq_true_eq,
    List.mem_filter] at hc
  obtain ⟨⟨h1, h2⟩, h3⟩ := hc
  refine ⟨h1, ?_, ?_⟩
  · intro s hs d hd hdc
    exact h2 s hs d ⟨hd, hdc⟩
  · intro htc
    cases h3 with
    | inl h3 => exact absurd h3 htc
    | inr h3 => exact h3

/-- Witness for C4 at a concrete input: reaching experiment from a fresh
scenario-entry task requires the whole stage sequence, in order. -/
theorem C4_missing_chain_correct_witness :
    topo_sort_missing_chain StageType.experiment EntryPoint.scenario [] =
      Except.ok [StageType.scenario, StageType.driving_question,
        StageType.question_chain, StageType.activity, StageType.experiment] ∧
    ((∀ s ∈ [StageType.scenario, StageType.driving_question,
        StageType.question_chain, StageType.activity, StageType.experiment],
        s ∉ ([] : List StageType)) ∧
     (∀ s ∈ [StageType.scenario, StageType.driving_question,
        StageType.question_chain, StageType.activity, StageType.experiment],
        ∀ d ∈ compute_required_deps s EntryPoint.scenario,
          d ∉ ([] : List StageType) →
          d ∈ [StageType.scenario, StageType.driving_question,
            StageType.question_chain, StageType.activity, StageType.experiment] ∧
          idxOfStage d [StageType.scenario, StageType.driving_question,
            StageType.question_chain, StageType.activity, StageType.experiment] <
          idxOfStage s [StageType.scenario, StageType.driving_question,
            StageType.question_chain, StageType.activity, StageType.experiment]) ∧
     (StageType.experiment ∉ ([] : List StageType) →
        [StageType.scenario, StageType.driving_question, StageType.question_chain,
          StageType.activity, StageType.experiment] ≠ [] ∧
        List.getLast? [StageType.scenario, StageType.driving_question,
          StageType.question_chain, StageType.activity, StageType.experiment] =
          some StageType.experiment)) :=
  ⟨rfl, C4_missing_chain_correct StageType.experiment EntryPoint.scenario [] _ rfl⟩

/-- C5: make_decision satisfies the spec case analysis.  A completed task
yields direction stay with no next stage; otherwise, for the checked stage s
(the explicit target, else the current stage; current_stage is always set so
the first-not-completed fallback of the source is dead code), a missing chain
whose head differs from s yields backward_completion towards that head with
constraints.missing_chain carrying the chain, and the remaining (non-error)
cases yield forward to s. -/
theorem C5_make_decision_cases (task : Task) (target : Option StageType)
    (req : Option String) (s : StageType) (hs : s = target.getD task.current_stage) :
    (task.status = "completed" →
      (make_decision task target req).direction = "stay" ∧
      (make_decision task target req).next_stage = none) ∧
    (task.status ≠ "completed" →
      ∀ chain,
        topo_sort_missing_chain s task.entry_point task.completed_stages =
          Except.ok chain →
        ((∃ h0 t0, chain = h0 :: t0 ∧ h0 ≠ s) →
            (make_decision task target req).direction = "backward_completion" ∧
            (make_decision task target req).next_stage = chain.head? ∧
            (make_decision task target req).constraints.missing_chain =
              some (chain.map stageValue)) ∧
        ((chain = [] ∨ chain.head? = some s) →
            (make_decision task target req).direction = "forward" ∧
            (make_decision task target req).next_stage = some s)) := by
  have hmatch : checkedStage task target = s := by
    cases target <;> simp [checkedStage, hs, Option.getD]
  constructor
  · intro h
    simp [make_decision, h]
  · intro h chain hok
    unfold make_decision
    simp only [h, if_false, hmatch, hok]
    constructor
    · rintro ⟨h0, t0, rfl, hne⟩
      simp [hne]
    · intro hcase
      match chain, hcase with
      | [], _ => simp [forwardDecision]
      | h0 :: t0, Or.inr hh =>
          simp only [List.head?] at hh
          have hh0 : h0 = s := by injection hh
          subst hh0
          simp [forwardDecision]

/-- Concrete task for the C5 witness: fresh scenario-entry task. -/
def c5Task : Task :=
  { entry_point := EntryPoint.scenario, current_stage := StageType.scenario }

/-- Witness for C5 at concrete inputs: requesting experiment on a fresh task
yields backward_completion towards scenario with the full missing chain. -/
theorem C5_make_decision_cases_witness :
    c5Task.status ≠ "completed" ∧
    topo_sort_missing_chain StageType.experiment c5Task.entry_point
      c5Task.completed_stages =
      Except.ok [StageType.scenario, StageType.driving_question,
        StageType.question_chain, StageType.activity, StageType.experiment] ∧
    ((make_decision c5Task (some StageType.experiment) none).direction =
        "backward_completion" ∧
      (make_decision c5Task (some StageType.experiment) none).next_stage =
        List.head? [StageType.scenario, StageType.driving_question,
          StageType.question_chain, StageType.activity, StageType.experiment] ∧
      (make_decision c5Task (some StageType.experiment) none).constraints.missing_chain =
        some (List.map stageValue [StageType.scenario, StageType.driving_question,
          StageType.question_chain, StageType.activity, StageType.experiment])) :=
  ⟨by decide, rfl,
    ((C5_make_decision_cases c5Task (some StageType.experiment) none
        StageType.experiment rfl).2 (by decide) _ rfl).1
      ⟨StageType.scenario, _, rfl, by decide⟩⟩

/-- Concrete artifact for the C1 counterexample: revision r1, one warning. -/
def c1Artifact : StageArtifact :=
  { stage := StageType.scenario, revision_id := "r1", warnings := ["w"] }

/-- Concrete conflict for the C1 counterexample. -/
def c1Conflict : Conflict :=
  { conflict_id := "c1", stage := StageType.scenario,
    severity := ConflictSeverity.warning, summary := "s" }

/-- Concrete task for the C1 counterexample: the scenario artifact carries a
warning and the scenario stage carries a recorded conflict. -/
def c1Task : Task :=
  { entry_point := EntryPoint.scenario,
    current_stage := StageType.scenario,
    artifacts := setStage (fun _ => none) StageType.scenario (some c1Artifact),
    conflicts := setStage (fun _ => none) StageType.scenario (some [c1Conflict]),
    updated_at := 0 }

/-- Concrete replay event for the C1 counterexample: candidates_generated
whose payload revision_id equals the artifact's current revision_id. -/
def c1Event : Event :=
  { type := "candidates_generated", stage := some StageType.scenario,
    payload := { revision_id := some "r1" } }

/-- Counterexample to C1 as stated: an idempotent-replay candidates_generated
event (payload revision_id equal to the artifact's current revision_id) does
not leave the task unchanged: the reducer clears the artifact's warnings and
the stage's conflicts before the revision check, and refreshes updated_at
unconditionally. -/
theorem C1_replay_counterexample :
    c1Event.type = "candidates_generated" ∧
    c1Event.payload.revision_id = some "r1" ∧
    (c1Task.artifacts StageType.scenario).map StageArtifact.revision_id = some "r1" ∧
    (c1Task.artifacts StageType.scenario).map StageArtifact.warnings = some ["w"] ∧
    ((apply_event 1 "f" c1Task c1Event).artifacts StageType.scenario).map
      StageArtifact.warnings = some [] ∧
    c1Task.conflicts StageType.scenario = some [c1Conflict] ∧
    (apply_event 1 "f" c1Task c1Event).conflicts StageType.scenario = some [] ∧
    c1Task.updated_at = 0 ∧
    (apply_event 1 "f" c1Task c1Event).updated_at = 1 :=
  ⟨rfl, rfl, rfl, rfl, rfl, rfl, rfl, rfl, rfl⟩

/-- C1 amended: applying a candidates_generated or candidates_regenerated
event whose payload revision_id is non-empty and equals the artifact's
current revision_id leaves the artifact's candidates, history,
iteration_count and selected_candidate_id and the task's stage status and
dialogue_state unchanged, but clears the artifact's warnings, clears the
stage's recorded conflicts, and refreshes updated_at. -/
theorem C1_amended_idempotent_replay
    (now : Nat) (fresh : String) (task : Task) (event : Event)
    (stage : StageType) (art : StageArtifact) (rid : String)
    (htype : event.type = "candidates_generated" ∨
      event.type = "candidates_regenerated")
    (hstage : event.stage = some stage)
    (hrid : event.payload.revision_id = some rid)
    (hne : rid ≠ "")
    (hart : task.artifacts stage = some art)
    (hrev : art.revision_id = rid) :
    (apply_event now fresh task event).artifacts stage =
      some { art with warnings := [] } ∧
    (apply_event now fresh task event).conflicts stage =
      (task.conflicts stage).map (fun _ => []) ∧
    (apply_event now fresh task event).updated_at = now ∧
    (apply_event now fresh task event).stage_status = task.stage_status ∧
    (apply_event now fresh task event).dialogue_state = task.dialogue_state := by
  have h1 : ¬(event.type = "task_created") := by
    rcases htype with h | h <;> simp [h]
  have h2 : ¬(event.type = "decision_emitted") := by
    rcases htype with h | h <;> simp [h]
  unfold apply_event
  rw [if_neg h1, if_neg h2, if_pos htype]
  simp only [hstage]
  simp only [ensure_artifact, hart, hrid, hrev, hne, ne_eq, not_false_eq_true,
    decide_True, Bool.true_and, decide_eq_true_eq]
  cases hc : task.conflicts stage with
  | some l => simp [hc, setStage]
  | none => simp [hc, setStage]

/-- Witness for the amended C1 at concrete inputs. -/
theorem C1_amended_idempotent_replay_witness :
    (c1Event.type = "candidates_generated" ∨
      c1Event.type = "candidates_regenerated") ∧
    c1Event.stage = some StageType.scenario ∧
    c1Event.payload.revision_id = some "r1" ∧
    "r1" ≠ "" ∧
    c1Task.artifacts StageType.scenario = some c1Artifact ∧
    c1Artifact.revision_id = "r1" ∧
    ((apply_event 1 "f" c1Task c1Event).artifacts StageType.scenario =
        some { c1Artifact with warnings := [] } ∧
      (apply_event 1 "f" c1Task c1Event).conflicts StageType.scenario =
        (c1Task.conflicts StageType.scenario).map (fun _ => []) ∧
      (apply_event 1 "f" c1Task c1Event).updated_at = 1 ∧
      (apply_event 1 "f" c1Task c1Event).stage_status = c1Task.stage_status ∧
      (apply_event 1 "f" c1Task c1Event).dialogue_state = c1Task.dialogue_state) :=
  ⟨Or.inl rfl, rfl, rfl, by decide, rfl, rfl,
    C1_amended_idempotent_replay 1 "f" c1Task c1Event StageType.scenario
      c1Artifact "r1" (Or.inl rfl) rfl rfl (by decide) rfl rfl⟩

/-- C3: can_finalize holds exactly when the stage artifact exists with a
non-empty selected_candidate_id, the candidate bearing that id is present
with status selected, and no recorded conflict for the stage is blocking and
unresolved.  The candidate ids of an artifact are pairwise distinct in every
reachable state (generators assign A, B, C, ... by position), which the
nodup hypothesis captures. -/
theorem C3_can_finalize_iff (task : Task) (stage : StageType)
    (hnodup : ∀ art, task.artifacts stage = some art →
      (art.candidates.map Candidate.id).Nodup) :
    can_finalize task stage = true ↔
      ((∃ art, task.artifacts stage = some art ∧
          ∃ sid, art.selected_candidate_id = some sid ∧ sid ≠ "" ∧
            ∃ c ∈ art.candidates, c.id = sid ∧ c.status = CandidateStatus.selected) ∧
        ∀ cf ∈ conflictsFor task stage,
          ¬(cf.severity = ConflictSeverity.blocking ∧ cf.resolved = false)) := by
  constructor
  · intro h
    unfold can_finalize at h
    cases hart : task.artifacts stage with
    | none => rw [hart] at h; cases h
    | some art =>
        rw [hart] at h
        dsimp only at h
        cases hsel : art.selected_candidate_id with
        | none => simp [hsel] at h
        | some sid =>
            rw [hsel] at h
            dsimp only at h
            by_cases hsid : sid = ""
            · simp [hsid] at h
            · rw [if_neg hsid] at h
              cases hfind : art.candidates.find? (fun c => decide (c.id = sid)) with
              | none => simp [hfind] at h
              | some c =>
                  rw [hfind] at h
                  dsimp only at h
                  by_cases hst : c.status ≠ CandidateStatus.selected
                  · rw [if_pos hst] at h; cases h
                  · rw [if_neg hst] at h
                    push_neg at hst
                    refine ⟨⟨art, rfl, sid, hsel, hsid, c,
                      List.mem_of_find?_eq_some hfind, ?_, hst⟩, ?_⟩
                    · have := List.find?_some hfind
                      simpa using this
                    · intro cf hcf
                      rw [List.all_eq_true] at h
                      have hx := h cf hcf
                      intro hpq
                      simp [hpq.1, hpq.2] at hx
  · rintro ⟨⟨art, hart, sid, hsel, hsid, c, hc_mem, hc_id, hc_st⟩, hconf⟩
    unfold can_finalize
    rw [hart]
    dsimp only
    rw [hsel]
    dsimp only
    rw [if_neg hsid]
    have hnd := hnodup art hart
    cases hfind : art.candidates.find? (fun c => decide (c.id = sid)) with
    | none =>
        exfalso
        have hsome : (art.candidates.find? (fun c => decide (c.id = sid))).isSome :=
          List.find?_isSome.mpr ⟨c, hc_mem, by simp [hc_id]⟩
        rw [hfind] at hsome
        cases hsome
    | some c2 =>
        have h1 : c2 ∈ art.candidates := List.mem_of_find?_eq_some hfind
        have h2 : c2.id = sid := by
          have := List.find?_some hfind
          simpa using this
        have hceq : c2 = c :=
          List.inj_on_of_nodup_map hnd h1 hc_mem (by rw [h2, hc_id])
        dsimp only
        rw [if_neg (by simp [hceq, hc_st])]
        rw [List.all_eq_true]
        intro cf hcf
        have hx := hconf cf hcf
        by_cases hA : cf.severity = ConflictSeverity.blocking
        · cases hcr : cf.resolved
          · exact absurd ⟨hA, hcr⟩ hx
          · simp [hA, hcr]
        · simp [hA]

/-- Concrete candidate for the C3 witness. -/
def c3Candidate : Candidate :=
  { id := "A", title := "t", status := CandidateStatus.selected }

/-- Concrete artifact for the C3 witness: candidate A selected. -/
def c3Artifact : StageArtifact :=
  { stage := StageType.scenario, revision_id := "r",
    candidates := [c3Candidate], selected_candidate_id := some "A" }

/-- Concrete task for the C3 witness. -/
def c3Task : Task :=
  { entry_point := EntryPoint.scenario,
    current_stage := StageType.scenario,
    artifacts := setStage (fun _ => none) StageType.scenario (some c3Artifact) }

/-- Witness for C3 at a concrete input: a finalizable task. -/
theorem C3_can_finalize_iff_witness :
    (∀ art, c3Task.artifacts StageType.scenario = some art →
      (art.candidates.map Candidate.id).Nodup) ∧
    (can_finalize c3Task StageType.scenario = true ↔
      ((∃ art, c3Task.artifacts StageType.scenario = some art ∧
          ∃ sid, art.selected_candidate_id = some sid ∧ sid ≠ "" ∧
            ∃ c ∈ art.candidates, c.id = sid ∧ c.status = CandidateStatus.selected) ∧
        ∀ cf ∈ conflictsFor c3Task StageType.scenario,
          ¬(cf.severity = ConflictSeverity.blocking ∧ cf.resolved = false))) := by
  have hnd : ∀ art, c3Task.artifacts StageType.scenario = some art →
      (art.candidates.map Candidate.id).Nodup := by
    intro art h
    injection h with h
    rw [h.symm]
    decide
  exact ⟨hnd, C3_can_finalize_iff c3Task StageType.scenario hnd⟩

/-- The exactly-one-selection property of one artifact (spec invariant 2): a
non-empty selected_candidate_id entails exactly one candidate with status
selected and every other candidate frozen. -/
def selectionOk (art : StageArtifact) : Prop :=
  ∀ sid, art.selected_candidate_id = some sid → sid ≠ "" →
    art.candidates.countP (fun c => decide (c.status = CandidateStatus.selected)) = 1 ∧
    ∀ c ∈ art.candidates,
      c.status = CandidateStatus.selected ∨ c.status = CandidateStatus.frozen

/-- The exactly-one-selection invariant over all stage artifacts of a task. -/
def selectionInvariant (task : Task) : Prop :=
  ∀ stage art, task.artifacts stage = some art → selectionOk art

/-- The well-formedness condition the orchestrator guarantees for a
candidate_selected event before emitting it (Orchestrator.apply_action
rejects ids that do not name an existing, non-frozen candidate, and
generator-built artifacts carry pairwise-distinct ids A, B, C, ...): the
selected id occurs exactly once among the artifact's candidates. -/
def eventSelectionWF (task : Task) (event : Event) : Prop :=
  event.type = "candidate_selected" →
  ∀ stage, event.stage = some stage →
    ∀ sid, event.payload.candidate_id = some sid → sid ≠ "" →
      (((task.artifacts stage).map StageArtifact.candidates).getD []).countP
        (fun c => decide (c.id = sid)) = 1

/-- An artifact with no selection satisfies selectionOk vacuously. -/
theorem selectionOk_of_none (art : StageArtifact)
    (h : art.selected_candidate_id = none) : selectionOk art := by
  intro sid hsid
  rw [h] at hsid
  cases hsid

/-- An artifact with the empty-string selection satisfies selectionOk
vacuously (the Python truthiness guard). -/
theorem selectionOk_of_empty (art : StageArtifact)
    (h : art.selected_candidate_id = some "") : selectionOk art := by
  intro sid hsid hne
  rw [h] at hsid
  injection hsid with hsid
  exact absurd hsid.symm hne

/-- selectionOk only depends on the candidates and the selection. -/
theorem selectionOk_congr (art art' : StageArtifact)
    (h1 : art'.candidates = art.candidates)
    (h2 : art'.selected_candidate_id = art.selected_candidate_id)
    (h : selectionOk art) : selectionOk art' := by
  intro sid hsid hne
  rw [h2] at hsid
  rw [h1]
  exact h sid hsid hne

/-- Transfer of the invariant along pointwise-equal artifact maps. -/
theorem selectionInvariant_mk (task task' : Task)
    (h : ∀ st, task'.artifacts st = task.artifacts st)
    (hinv : selectionInvariant task) : selectionInvariant task' := by
  intro stage art hart
  exact hinv stage art (by rw [← h stage]; exact hart)

/-- Transfer of the invariant along a single-stage artifact update. -/
theorem selectionInvariant_update (task' task : Task) (stage : StageType)
    (artN : StageArtifact)
    (h : ∀ st, st ≠ stage → task'.artifacts st = task.artifacts st)
    (hstage : task'.artifacts stage = some artN)
    (hinv : selectionInvariant task) (hok : selectionOk artN) :
    selectionInvariant task' := by
  intro st art hart
  by_cases hst : st = stage
  · subst hst
    rw [hstage] at hart
    injection hart with e
    rw [← e]
    exact hok
  · exact hinv st art ((h st hst) ▸ hart)

/-- append_working_memory does not touch the artifacts. -/
theorem append_wm_artifacts (t : Task) (note : String) (focus : Option String) :
    (append_working_memory t note focus).artifacts = t.artifacts := by
  unfold append_working_memory
  cases focus with
  | none => split <;> rfl
  | some f =>
      by_cases hf : f ≠ "" <;> by_cases hn : note ≠ "" <;> simp [hf, hn]

/-- Transfer of the invariant along a single-stage artifact update, with the
new artifact recovered from the updated task. -/
theorem selectionInvariant_update2 (taskN task : Task) (stage : StageType)
    (h : ∀ st, st ≠ stage → taskN.artifacts st = task.artifacts st)
    (hinv : selectionInvariant task)
    (hok : ∀ artN, taskN.artifacts stage = some artN → selectionOk artN) :
    selectionInvariant taskN := by
  intro st art hart
  by_cases hst : st = stage
  · subst hst
    exact hok art hart
  · exact hinv st art ((h st hst) ▸ hart)

set_option maxHeartbeats 2000000 in
/-- C2: the exactly-one-selection invariant (a non-empty
selected_candidate_id entails exactly one selected candidate with all others
frozen, for every stage artifact) is preserved by every event the reducer
applies, given the well-formedness the orchestrator guarantees for
candidate_selected payloads (the selected id names exactly one candidate of
the target artifact); candidates_generated, candidates_regenerated and
candidate_selected are covered along with every other event type. -/
theorem C2_selection_invariant_preserved (now : Nat) (fresh : String)
    (task : Task) (event : Event)
    (hinv : selectionInvariant task) (hwf : eventSelectionWF task event) :
    selectionInvariant (apply_event now fresh task event) := by
  unfold apply_event
  have hinvu : selectionInvariant { task with updated_at := now } :=
    selectionInvariant_mk task _ (fun st => rfl) hinv
  by_cases h1 : event.type = "task_created"
  · rw [if_pos h1]
    rcases event.payload.entry_point with _ | ep <;>
      rcases event.payload.current_stage with _ | cs <;>
      exact selectionInvariant_mk _ _ (fun st => rfl) hinvu
  rw [if_neg h1]
  by_cases h2 : event.type = "decision_emitted"
  · rw [if_pos h2]
    rcases event.payload.decision with _ | d <;>
      exact selectionInvariant_mk _ _ (fun st => rfl) hinvu
  rw [if_neg h2]
  by_cases h3 : event.type = "candidates_generated" ∨ event.type = "candidates_regenerated"
  · rw [if_pos h3]
    cases hstage : event.stage with
    | none => exact hinvu
    | some stage =>
        cases hart : task.artifacts stage with
        | some art =>
            simp only [ensure_artifact]
            dsimp only
            simp only [hart]
            cases hconf : task.conflicts stage with
            | some cl =>
                simp only [hconf]
                split
                · -- replay branch
                  refine selectionInvariant_update2 _ task stage
                    (fun st hst => by simp [setStage, hst]) hinv ?_
                  intro artN hN
                  simp only [setStage, if_pos rfl] at hN
                  injection hN with hN
                  rw [← hN]
                  exact selectionOk_congr _ art rfl rfl (hinv stage art hart)
                · -- install branch
                  refine selectionInvariant_update2 _ task stage
                    (fun st hst => by rw [append_wm_artifacts]; simp [setStage, hst])
                    hinv ?_
                  intro artN hN
                  rw [append_wm_artifacts] at hN
                  simp only [setStage, if_pos rfl] at hN
                  injection hN with hN
                  rw [← hN]
                  apply selectionOk_of_none
                  split <;> rfl
            | none =>
                simp only [hconf]
                split
                · refine selectionInvariant_update2 _ task stage
                    (fun st hst => by simp [setStage, hst]) hinv ?_
                  intro artN hN
                  simp only [setStage, if_pos rfl] at hN
                  injection hN with hN
                  rw [← hN]
                  exact selectionOk_congr _ art rfl rfl (hinv stage art hart)
                · refine selectionInvariant_update2 _ task stage
                    (fun st hst => by rw [append_wm_artifacts]; simp [setStage, hst])
                    hinv ?_
                  intro artN hN
                  rw [append_wm_artifacts] at hN
                  simp only [setStage, if_pos rfl] at hN
                  injection hN with hN
                  rw [← hN]
                  apply selectionOk_of_none
                  split <;> rfl
        | none =>
            simp only [ensure_artifact]
            dsimp only
            simp only [hart]
            cases hconf : task.conflicts stage <;> simp only [hconf] <;> split
            · refine selectionInvariant_update2 _ task stage
                (fun st hst => by simp [setStage, hst]) hinv ?_
              intro artN hN
              simp only [setStage, if_pos rfl] at hN
              injection hN with hN
              rw [← hN]
              exact selectionOk_of_none _ rfl
            · refine selectionInvariant_update2 _ task stage
                (fun st hst => by rw [append_wm_artifacts]; simp [setStage, hst])
                hinv ?_
              intro artN hN
              rw [append_wm_artifacts] at hN
              simp only [setStage, if_pos rfl] at hN
              injection hN with hN
              rw [← hN]
              apply selectionOk_of_none
              split <;> rfl
            · refine selectionInvariant_update2 _ task stage
                (fun st hst => by simp [setStage, hst]) hinv ?_
              intro artN hN
              simp only [setStage, if_pos rfl] at hN
              injection hN with hN
              rw [← hN]
              exact selectionOk_of_none _ rfl
            · refine selectionInvariant_update2 _ task stage
                (fun st hst => by rw [append_wm_artifacts]; simp [setStage, hst])
                hinv ?_
              intro artN hN
              rw [append_wm_artifacts] at hN
              simp only [setStage, if_pos rfl] at hN
              injection hN with hN
              rw [← hN]
              apply selectionOk_of_none
              split <;> rfl
  rw [if_neg h3]
  by_cases h4 : event.type = "candidate_selected"
  · rw [if_pos h4]
    cases hstage : event.stage with
    | none => exact hinvu
    | some stage =>
        cases hart : task.artifacts stage with
        | some art =>
            simp only [ensure_artifact, hart]
            have hcount := hwf h4 stage hstage
            rw [hart] at hcount
            simp only [Option.map_some', Option.getD_some] at hcount
            cases hconf : task.conflicts stage <;> simp only [hconf] <;>
              rcases hsid : event.payload.candidate_id with _ | sid <;>
              try dsimp only
            case _ =>
              refine selectionInvariant_update2 _ task stage
                (fun st hst => by simp [setStage, hst]) hinv ?_
              intro artN hN
              simp only [setStage, if_pos rfl] at hN
              injection hN with hN
              rw [← hN]
              exact selectionOk_of_none _ rfl
            case _ =>
              by_cases hs : sid = ""
              · subst hs
                rw [if_neg (by simp)]
                refine selectionInvariant_update2 _ task stage
                  (fun st hst => by simp [setStage, hst]) hinv ?_
                intro artN hN
                simp only [setStage, if_pos rfl] at hN
                injection hN with hN
                rw [← hN]
                exact selectionOk_of_empty _ rfl
              · rw [if_pos hs]
                refine selectionInvariant_update2 _ task stage
                  (fun st hst => by rw [append_wm_artifacts]; simp [setStage, hst])
                  hinv ?_
                intro artN hN
                rw [append_wm_artifacts] at hN
                simp only [setStage, if_pos rfl] at hN
                injection hN with hN
                rw [← hN]
                intro sid2 hsid2 hne2
                have hc1 := hcount sid (hsid ▸ rfl) hs
                constructor
                · rw [List.countP_map]
                  rw [← hc1]
                  apply List.countP_congr
                  intro c _
                  by_cases hid : sid = c.id
                  · simp [Function.comp, hid]
                  · have hsome : ¬(some sid = some c.id) := by
                      intro hx; exact hid (Option.some.inj hx)
                    have hcid : ¬(c.id = sid) := fun hx => hid hx.symm
                    simp [Function.comp, hsome, hcid]
                · intro c hc
                  rcases List.mem_map.mp hc with ⟨c0, _, rfl⟩
                  split <;> simp
            case _ =>
              refine selectionInvariant_update2 _ task stage
                (fun st hst => by simp [setStage, hst]) hinv ?_
              intro artN hN
              simp only [setStage, if_pos rfl] at hN
              injection hN with hN
              rw [← hN]
              exact selectionOk_of_none _ rfl
            case _ =>
              by_cases hs : sid = ""
              · subst hs
                rw [if_neg (by simp)]
                refine selectionInvariant_update2 _ task stage
                  (fun st hst => by simp [setStage, hst]) hinv ?_
                intro artN hN
                simp only [setStage, if_pos rfl] at hN
                injection hN with hN
                rw [← hN]
                exact selectionOk_of_empty _ rfl
              · rw [if_pos hs]
                refine selectionInvariant_update2 _ task stage
                  (fun st hst => by rw [append_wm_artifacts]; simp [setStage, hst])
                  hinv ?_
                intro artN hN
                rw [append_wm_artifacts] at hN
                simp only [setStage, if_pos rfl] at hN
                injection hN with hN
                rw [← hN]
                intro sid2 hsid2 hne2
                have hc1 := hcount sid (hsid ▸ rfl) hs
                constructor
                · rw [List.countP_map]
                  rw [← hc1]
                  apply List.countP_congr
                  intro c _
                  by_cases hid : sid = c.id
                  · simp [Function.comp, hid]
                  · have hsome : ¬(some sid = some c.id) := by
                      intro hx; exact hid (Option.some.inj hx)
                    have hcid : ¬(c.id = sid) := fun hx => hid hx.symm
                    simp [Function.comp, hsome, hcid]
                · intro c hc
                  rcases List.mem_map.mp hc with ⟨c0, _, rfl⟩
                  split <;> simp
        | none =>
            simp only [ensure_artifact, hart]
            have hcount := hwf h4 stage hstage
            rw [hart] at hcount
            simp only [Option.map_none', Option.getD_none] at hcount
            cases hconf : task.conflicts stage <;> simp only [hconf] <;>
              rcases hsid : event.payload.candidate_id with _ | sid <;>
              try dsimp only
            case _ =>
              refine selectionInvariant_update2 _ task stage
                (fun st hst => by simp [setStage, hst]) hinv ?_
              intro artN hN
              simp only [setStage, if_pos rfl] at hN
              injection hN with hN
              rw [← hN]
              exact selectionOk_of_none _ rfl
            case _ =>
              by_cases hs : sid = ""
              · subst hs
                rw [if_neg (by simp)]
                refine selectionInvariant_update2 _ task stage
                  (fun st hst => by simp [setStage, hst]) hinv ?_
                intro artN hN
                simp only [setStage, if_pos rfl] at hN
                injection hN with hN
                rw [← hN]
                exact selectionOk_of_empty _ rfl
              · exact absurd (hcount sid (hsid ▸ rfl) hs) (by simp)
            case _ =>
              refine selectionInvariant_update2 _ task stage
                (fun st hst => by simp [setStage, hst]) hinv ?_
              intro artN hN
              simp only [setStage, if_pos rfl] at hN
              injection hN with hN
              rw [← hN]
              exact selectionOk_of_none _ rfl
            case _ =>
              by_cases hs : sid = ""
              · subst hs
                rw [if_neg (by simp)]
                refine selectionInvariant_update2 _ task stage
                  (fun st hst => by simp [setStage, hst]) hinv ?_
                intro artN hN
                simp only [setStage, if_pos rfl] at hN
                injection hN with hN
                rw [← hN]
                exact selectionOk_of_empty _ rfl
              · exact absurd (hcount sid (hsid ▸ rfl) hs) (by simp)
  rw [if_neg h4]
  by_cases h5 : event.type = "feedback_recorded"
  · rw [if_pos h5]
    cases hstage : event.stage with
    | none => exact hinvu
    | some stage =>
        cases hart : task.artifacts stage with
        | some art =>
            simp only [ensure_artifact, hart]
            refine selectionInvariant_update2 _ task stage
              (fun st hst => by rw [append_wm_artifacts]; simp [setStage, hst])
              hinv ?_
            intro artN hN
            rw [append_wm_artifacts] at hN
            simp only [setStage, if_pos rfl] at hN
            injection hN with hN
            rw [← hN]
            exact selectionOk_congr _ art rfl rfl (hinv stage art hart)
        | none =>
            simp only [ensure_artifact, hart]
            refine selectionInvariant_update2 _ task stage
              (fun st hst => by rw [append_wm_artifacts]; simp [setStage, hst])
              hinv ?_
            intro artN hN
            rw [append_wm_artifacts] at hN
            simp only [setStage, if_pos rfl] at hN
            injection hN with hN
            rw [← hN]
            exact selectionOk_of_none _ rfl
  rw [if_neg h5]
  by_cases h6 : event.type = "conflict_detected"
  · rw [if_pos h6]
    cases hstage : event.stage with
    | none => exact hinvu
    | some stage =>
        rcases event.payload.conflict with _ | c
    
        · exact hinvu
        · refine selectionInvariant_mk _ _
            (fun st => by rw [append_wm_artifacts]) hinvu
  rw [if_neg h6]
  by_cases h7 : event.type = "conflict_resolved"
  · rw [if_pos h7]
    cases hstage : event.stage with
    | none => exact hinvu
    | some stage =>
        refine selectionInvariant_mk _ _
          (fun st => by rw [append_wm_artifacts]) hinvu
  rw [if_neg h7]
  by_cases h8 : event.type = "message_emitted"
  · rw [if_pos h8]
    rcases event.payload.message with _ | m
    · exact hinvu
    · dsimp only
      split
      · rcases m.entry_decision with _ | ed <;>
          exact selectionInvariant_mk _ _ (fun st => rfl) hinvu
      · exact selectionInvariant_mk _ _ (fun st => rfl) hinvu
  rw [if_neg h8]
  by_cases h9 : event.type = "intent_updated"
  · rw [if_pos h9]
    rcases event.payload.after with _ | a
    · rcases event.payload.revision with _ | r <;>
        exact selectionInvariant_mk _ _ (fun st => rfl) hinvu
    · dsimp only
      by_cases hp : pyStripStr a ≠ ""
      · rw [if_pos hp]
        rcases event.payload.revision with _ | r <;>
          exact selectionInvariant_mk _ _ (fun st => rfl) hinvu
      · rw [if_neg hp]
        rcases event.payload.revision with _ | r <;>
          exact selectionInvariant_mk _ _ (fun st => rfl) hinvu
  rw [if_neg h9]
  by_cases h10 : event.type = "stage_finalized"
  · rw [if_pos h10]
    cases hstage : event.stage with
    | none => exact hinvu
    | some stage =>
        cases hart : task.artifacts stage with
        | some art =>
            simp only [ensure_artifact, hart]
            rcases event.payload.next_stage with _ | ns <;> dsimp only <;> split <;>
              refine selectionInvariant_update2 _ task stage
                (fun st hst => by rw [append_wm_artifacts]; simp [setStage, hst])
                hinv (fun artN hN => ?_) <;>
              rw [append_wm_artifacts] at hN <;>
              simp only [setStage, if_pos rfl] at hN <;>
              (injection hN with hN) <;> rw [← hN] <;>
              exact selectionOk_congr _ art rfl rfl (hinv stage art hart)
        | none =>
            simp only [ensure_artifact, hart]
            rcases event.payload.next_stage with _ | ns <;> dsimp only <;> split <;>
              refine selectionInvariant_update2 _ task stage
                (fun st hst => by rw [append_wm_artifacts]; simp [setStage, hst])
                hinv (fun artN hN => ?_) <;>
              rw [append_wm_artifacts] at hN <;>
              simp only [setStage, if_pos rfl] at hN <;>
              (injection hN with hN) <;> rw [← hN] <;>
              exact selectionOk_of_none _ rfl
  rw [if_neg h10]
  by_cases h11 : event.type = "stage_redirected"
  · rw [if_pos h11]
    rcases event.payload.current_stage with _ | t
    · rcases event.stage with _ | t2
      · exact hinvu
      · exact selectionInvariant_mk _ _
          (fun st => by rw [append_wm_artifacts]) hinvu
    · exact selectionInvariant_mk _ _
        (fun st => by rw [append_wm_artifacts]) hinvu
  rw [if_neg h11]
  by_cases h12 : event.type = "task_completed"
  · rw [if_pos h12]
    exact selectionInvariant_mk _ _ (fun st => rfl) hinvu
  rw [if_neg h12]
  by_cases h13 : event.type = "error_raised"
  · rw [if_pos h13]
    exact selectionInvariant_mk _ _ (fun st => rfl) hinvu
  rw [if_neg h13]
  exact hinvu

/-- Concrete candidate for the C2 witness. -/
def c2Candidate : Candidate := { id := "A", title := "t" }

/-- Concrete artifact for the C2 witness: one generated candidate, nothing
selected yet. -/
def c2Artifact : StageArtifact :=
  { stage := StageType.scenario, revision_id := "r", candidates := [c2Candidate] }

/-- Concrete task for the C2 witness. -/
def c2Task : Task :=
  { entry_point := EntryPoint.scenario,
    current_stage := StageType.scenario,
    artifacts := setStage (fun _ => none) StageType.scenario (some c2Artifact) }

/-- Concrete candidate_selected event for the C2 witness. -/
def c2Event : Event :=
  { type := "candidate_selected", stage := some StageType.scenario,
    payload := { candidate_id := some "A" } }

/-- Witness for C2 at concrete inputs: selecting candidate A preserves the
invariant. -/
theorem C2_selection_invariant_preserved_witness :
    selectionInvariant c2Task ∧ eventSelectionWF c2Task c2Event ∧
    selectionInvariant (apply_event 1 "f" c2Task c2Event) := by
  have hinv : selectionInvariant c2Task := by
    intro stage art h
    by_cases hs : stage = StageType.scenario
    · subst hs
      injection h with h
      rw [← h]
      exact selectionOk_of_none _ rfl
    · simp [c2Task, setStage, hs] at h
  have hwf : eventSelectionWF c2Task c2Event := by
    intro _ stage2 hstage2 sid hsid hne
    injection hstage2 with hstage2
    injection hsid with hsid
    rw [← hstage2, ← hsid]
    decide
  exact ⟨hinv, hwf,
    C2_selection_invariant_preserved 1 "f" c2Task c2Event hinv hwf⟩

/-- C7: the activity-alignment validator emits no conflict exactly when no
check fails, at most one conflict otherwise, and the emitted conflict's
severity is blocking when both the topic check and the question-chain check
fail, warning when exactly one of those two fails, and info otherwise (that
is, when only the declared tool constraints are non-empty and absent from the
activity text). -/
theorem C7_alignment_severity (fresh : String) (ts : ToolSeed)
    (qchain : List String) (text : String) :
    ((validate_activity_alignment fresh ts qchain text).conflicts = [] ↔
      (topicCheckFails ts text = false ∧ chainCheckFails qchain text = false ∧
        toolConstraintsFail ts text = false)) ∧
    (∀ c ∈ (validate_activity_alignment fresh ts qchain text).conflicts,
      c.severity =
        if topicCheckFails ts text && chainCheckFails qchain text then
          ConflictSeverity.blocking
        else if topicCheckFails ts text || chainCheckFails qchain text then
          ConflictSeverity.warning
        else ConflictSeverity.info) ∧
    (validate_activity_alignment fresh ts qchain text).conflicts.length ≤ 1 := by
  cases hT : topicCheckFails ts text <;>
    cases hQ : chainCheckFails qchain text <;>
    cases hC : toolConstraintsFail ts text <;>
    simp [validate_activity_alignment, hT, hQ, hC]

/-- Concrete tool seed for the C7 witness. -/
def c7Seed : ToolSeed :=
  { tool_name := "Orange", user_intent := "Teach",
    constraints := { topic := some "Topic" } }

/-- Concrete activity text for the C7 witness (mentions neither the topic
nor the chain). -/
def c7Text : String := "unrelated activity"

/-- The conflict the validator emits at the C7 witness input. -/
def c7Conflict : Conflict :=
  { conflict_id := "f",
    stage := StageType.activity,
    severity := ConflictSeverity.blocking,
    summary := "Activity alignment with tool_seed/question_chain is insufficient.",
    warnings := ["Activity does not mention the topic keyword.",
                 "Activity does not reflect the question chain."],
    conflict_options :=
      [⟨"A", "Adjust tool_seed parameters",
        "Modify tool_seed topic, constraints, or context to fit the activity."⟩,
       ⟨"B", "Select a different question chain",
        "Choose or regenerate a question_chain that matches the activity."⟩,
       ⟨"C", "Generate a compromise plan",
        "Produce a compromise plan and note the trade-offs."⟩],
    recommendation :=
      "Align the question chain and topic first, then refine activity details." }

/-- Witness for C7 at a concrete input: topic and chain both missing gives a
blocking conflict. -/
theorem C7_alignment_severity_witness :
    c7Conflict ∈ (validate_activity_alignment "f" c7Seed ["q1"] c7Text).conflicts ∧
    c7Conflict.severity =
      (if topicCheckFails c7Seed c7Text && chainCheckFails ["q1"] c7Text then
        ConflictSeverity.blocking
      else if topicCheckFails c7Seed c7Text || chainCheckFails ["q1"] c7Text then
        ConflictSeverity.warning
      else ConflictSeverity.info) :=
  ⟨by decide,
    (C7_alignment_severity "f" c7Seed ["q1"] c7Text).2.1 c7Conflict (by decide)⟩

/-- The truncate-or-pad step in closed form: first three entries, then
placeholders up to length three. -/
theorem padOrTruncate_eq (ph : String) (l : List String) :
    padOrTruncateQuestions ph l =
      l.take 3 ++ List.replicate (3 - l.length) ph := by
  unfold padOrTruncateQuestions
  by_cases h : 3 ≤ l.length
  · rw [if_pos h]
    have h0 : 3 - l.length = 0 := by omega
    simp [h0]
  · rw [if_neg h]
    have h0 : l.take 3 = l := List.take_of_length_le (by omega)
    rw [h0]

/-- The truncate-or-pad step always yields exactly three questions. -/
theorem padOrTruncate_length (ph : String) (l : List String) :
    (padOrTruncateQuestions ph l).length = 3 := by
  unfold padOrTruncateQuestions
  by_cases h : 3 ≤ l.length
  · simp only [if_pos h, List.length_take]
    omega
  · simp only [if_neg h, List.length_append, List.length_replicate]
    omega

/-- Every candidate built by the question_chain generator loop carries a
three-question chain of truncate-or-pad shape. -/
theorem qcBuild_shape :
    ∀ (raws : List RawOption) (gctx : GenerationContext) (idx : Nat)
      (c : Candidate), c ∈ qcBuildCandidates gctx idx raws →
      ∃ (qs parsed : List String),
        lookupContent c.content "question_chain" = some (ContentValue.list qs) ∧
        qs.length = 3 ∧
        qs = parsed.take 3 ++ List.replicate (3 - parsed.length)
          "TBD: add a sub-question." := by
  intro raws
  induction raws with
  | nil => intro gctx idx c hc; cases hc
  | cons raw rest ih =>
      intro gctx idx c hc
      cases hc with
      | head =>
          refine ⟨padOrTruncateQuestions "TBD: add a sub-question." (rawQuestionsOf raw),
            rawQuestionsOf raw, ?_, padOrTruncate_length _ _, padOrTruncate_eq _ _⟩
          simp [qcBuildCandidate, lookupContent]
      | tail _ hmem => exact ih gctx (idx + 1) c hmem

/-- Every candidate built by the driving_question generator loop carries a
three-question chain of truncate-or-pad shape. -/
theorem dqBuild_shape :
    ∀ (raws : List RawOption) (gctx : GenerationContext) (idx : Nat)
      (c : Candidate), c ∈ dqBuildCandidates gctx idx raws →
      ∃ (qs parsed : List String),
        lookupContent c.content "question_chain" = some (ContentValue.list qs) ∧
        qs.length = 3 ∧
        qs = parsed.take 3 ++ List.replicate (3 - parsed.length)
          "TBD: add an investigable sub-question." := by
  intro raws
  induction raws with
  | nil => intro gctx idx c hc; cases hc
  | cons raw rest ih =>
      intro gctx idx c hc
      cases hc with
      | head =>
          refine ⟨padOrTruncateQuestions "TBD: add an investigable sub-question."
              (rawQuestionsOf raw),
            rawQuestionsOf raw, ?_, padOrTruncate_length _ _, padOrTruncate_eq _ _⟩
          simp [dqBuildCandidate, lookupContent]
      | tail _ hmem => exact ih gctx (idx + 1) c hmem

/-- C8: every candidate returned by the question_chain and driving_question
generators contains a question_chain with exactly three sub-questions: the
parsed LM output is truncated to its first three entries and padded with the
stage placeholder up to length three, for any LM behaviour. -/
theorem C8_question_chain_shape :
    (∀ (gen : Nat → List RawOption) (gctx : GenerationContext) (count : Nat)
        (avoid : List String) (cands : List Candidate),
        qcGenerate gen gctx count avoid = Except.ok cands →
        ∀ c ∈ cands, ∃ (qs parsed : List String),
          lookupContent c.content "question_chain" = some (ContentValue.list qs) ∧
          qs.length = 3 ∧
          qs = parsed.take 3 ++ List.replicate (3 - parsed.length)
            "TBD: add a sub-question.") ∧
    (∀ (gen : Nat → List RawOption) (gctx : GenerationContext) (count : Nat)
        (avoid : List String) (cands : List Candidate),
        dqGenerate gen gctx count avoid = Except.ok cands →
        ∀ c ∈ cands, ∃ (qs parsed : List String),
          lookupContent c.content "question_chain" = some (ContentValue.list qs) ∧
          qs.length = 3 ∧
          qs = parsed.take 3 ++ List.replicate (3 - parsed.length)
            "TBD: add an investigable sub-question.") := by
  constructor
  · intro gen gctx count avoid cands h c hc
    unfold qcGenerate at h
    cases hu : qc_ensure_unique (fun k => gen (k + 1)) (gen 0) count avoid with
    | error e => rw [hu] at h; cases h
    | ok raws =>
        rw [hu] at h
        injection h with h
        rw [← h] at hc
        exact qcBuild_shape raws gctx 0 c hc
  · intro gen gctx count avoid cands h c hc
    unfold dqGenerate at h
    cases hu : dq_ensure_unique (fun k => gen (k + 1)) (gen 0) count avoid with
    | error e => rw [hu] at h; cases h
    | ok raws =>
        rw [hu] at h
        injection h with h
        rw [← h] at hc
        exact dqBuild_shape raws gctx 0 c hc

/-- Concrete raw LM option for the C8 witness: four sub-questions, to be
truncated to three. -/
def c8Raw : RawOption := { question_chain := QCVal.listVal ["a", "b", "c", "d"] }

/-- Concrete LM oracle for the C8 witness. -/
def c8Gen : Nat → List RawOption := fun _ => [c8Raw]

/-- The candidate the question_chain generator builds at the C8 witness
input. -/
def c8Cand : Candidate := qcBuildCandidate {} 0 c8Raw

/-- Witness for C8 at a concrete input. -/
theorem C8_question_chain_shape_witness :
    qcGenerate c8Gen {} 1 [] = Except.ok [c8Cand] ∧
    (∃ (qs parsed : List String),
      lookupContent c8Cand.content "question_chain" = some (ContentValue.list qs) ∧
      qs.length = 3 ∧
      qs = parsed.take 3 ++ List.replicate (3 - parsed.length)
        "TBD: add a sub-question.") :=
  ⟨rfl, (C8_question_chain_shape).1 c8Gen {} 1 [] [c8Cand] rfl c8Cand
    (by simp)⟩

/-- Jaccard similarity is symmetric. -/
theorem similarity_comm (a b : String) : similarity a b = similarity b a := by
  unfold similarity
  by_cases ha : (normalize_text a).toList = [] <;>
    by_cases hb : (normalize_text b).toList = [] <;>
    simp [ha, hb, Finset.inter_comm, Finset.union_comm, or_comm]

/-- A text that is not a duplicate of a seen set is strictly below the
threshold against every member. -/
theorem lt_of_is_duplicate_false (t : String) (seen : List String)
    (h : is_duplicate t seen = false) :
    ∀ s ∈ seen, similarity t s < DUPLICATE_THRESHOLD := by
  unfold is_duplicate at h
  by_cases hn : normalize_text t = ""
  · rw [if_pos hn] at h; cases h
  · rw [if_neg hn] at h
    intro s hs
    rw [List.any_eq_false] at h
    have hx := h s hs
    simp only [decide_eq_true_eq] at hx
    exact lt_of_not_le hx

/-- The invariant carried by _ensure_unique: the seen list contains the
avoid list and the texts of all kept options, the kept options are pairwise
below the threshold, and each kept option is below the threshold against the
avoid list. -/
def uniqueInv {α : Type} (optionText : α → String) (avoid : List String)
    (unique : List α) (seen : List String) : Prop :=
  (∀ a ∈ avoid, a ∈ seen) ∧
  (∀ u ∈ unique, optionText u ∈ seen) ∧
  List.Pairwise (fun a b => similarity a b < DUPLICATE_THRESHOLD)
    (unique.map optionText) ∧
  (∀ u ∈ unique, ∀ a ∈ avoid, similarity (optionText u) a < DUPLICATE_THRESHOLD)

/-- The invariant is monotone in the seen list. -/
theorem uniqueInv_mono {α : Type} (optionText : α → String) (avoid : List String)
    (unique : List α) (seen seen2 : List String)
    (h : uniqueInv optionText avoid unique seen)
    (hsub : ∀ s ∈ seen, s ∈ seen2) :
    uniqueInv optionText avoid unique seen2 := by
  obtain ⟨h1, h2, h3, h4⟩ := h
  exact ⟨fun a ha => hsub a (h1 a ha), fun u hu => hsub _ (h2 u hu), h3, h4⟩

/-- Keeping a non-duplicate option preserves the invariant. -/
theorem uniqueInv_step {α : Type} (optionText : α → String) (avoid : List String)
    (unique : List α) (seen : List String) (cand : α)
    (h : uniqueInv optionText avoid unique seen)
    (hdup : is_duplicate (optionText cand) seen = false) :
    uniqueInv optionText avoid (unique ++ [cand]) (seen ++ [optionText cand]) := by
  obtain ⟨h1, h2, h3, h4⟩ := h
  have hlt := lt_of_is_duplicate_false _ _ hdup
  refine ⟨?_, ?_, ?_, ?_⟩
  · intro a ha
    exact List.mem_append_left _ (h1 a ha)
  · intro u hu
    rcases List.mem_append.mp hu with hu | hu
    · exact List.mem_append_left _ (h2 u hu)
    · rcases List.mem_singleton.mp hu with rfl
      exact List.mem_append_right _ (List.mem_singleton_self _)
  · rw [List.map_append]
    rw [List.pairwise_append]
    refine ⟨h3, by simp, ?_⟩
    intro x hx y hy
    rcases List.mem_map.mp hx with ⟨u, hu, rfl⟩
    simp only [List.map_cons, List.map_nil, List.mem_singleton] at hy
    subst hy
    have hxs : optionText u ∈ seen := h2 u hu
    have := hlt _ hxs
    rw [similarity_comm] at this
    exact this
  · intro u hu a ha
    rcases List.mem_append.mp hu with hu | hu
    · exact h4 u hu a ha
    · rcases List.mem_singleton.mp hu with rfl
      exact hlt a (h1 a ha)

/-- On success, the retry loop returns a replacement whose text is not a
duplicate of the (grown) seen list, which contains the original seen
list. -/
theorem retrySlot_ok {α : Type} (optionText : α → String) (errDup : String)
    (gen : Nat → List α) :
    ∀ (tries k : Nat) (seen : List String) (cand : α) (ctext : String)
      (k2 : Nat) (seen2 : List String),
      retrySlot optionText errDup gen k tries seen =
        Except.ok (cand, ctext, k2, seen2) →
      ctext = optionText cand ∧ is_duplicate ctext seen2 = false ∧
      ∀ s ∈ seen, s ∈ seen2 := by
  intro tries
  induction tries with
  | zero => intro k seen cand ctext k2 seen2 h; cases h
  | succ t ih =>
      intro k seen cand ctext k2 seen2 h
      unfold retrySlot at h
      cases hg : gen k with
      | nil =>
          rw [hg] at h
          exact ih (k + 1) seen cand ctext k2 seen2 h
      | cons c0 rest =>
          rw [hg] at h
          dsimp only at h
          by_cases hdup : is_duplicate (optionText c0) seen
          · rw [if_pos hdup] at h
            obtain ⟨e1, e2, e3⟩ := ih (k + 1) (seen ++ [optionText c0]) cand ctext k2 seen2 h
            exact ⟨e1, e2, fun s hs => e3 s (List.mem_append_left _ hs)⟩
          · rw [if_neg hdup] at h
            injection h with h
            injection h with hcand h
            injection h with hctext h
            injection h with hk2 hseen
            subst hcand; subst hctext; subst hseen
            exact ⟨rfl, by simpa using hdup, fun s hs => hs⟩

/-- Failures of the retry loop carry the duplicate error message. -/
theorem retrySlot_error {α : Type} (optionText : α → String) (errDup : String)
    (gen : Nat → List α) :
    ∀ (tries k : Nat) (seen : List String) (e : String),
      retrySlot optionText errDup gen k tries seen = Except.error e →
      e = errDup := by
  intro tries
  induction tries with
  | zero =>
      intro k seen e h
      unfold retrySlot at h
      injection h with h
      exact h.symm
  | succ t ih =>
      intro k seen e h
      unfold retrySlot at h
      cases hg : gen k with
      | nil => rw [hg] at h; exact ih (k + 1) seen e h
      | cons c0 rest =>
          rw [hg] at h
          dsimp only at h
          by_cases hdup : is_duplicate (optionText c0) seen
          · rw [if_pos hdup] at h
            exact ih (k + 1) (seen ++ [optionText c0]) e h
          · rw [if_neg hdup] at h
            cases h


/-- The first phase of _ensure_unique preserves the invariant. -/
theorem ensureUniqueLoop_ok {α : Type} (optionText : α → String)
    (errDup : String) (gen : Nat → List α) (count : Nat) (avoid : List String) :
    ∀ (raws unique : List α) (k : Nat) (seen : List String)
      (out : List α) (k2 : Nat) (seen2 : List String),
      uniqueInv optionText avoid unique seen →
      ensureUniqueLoop optionText errDup gen count raws unique k seen =
        Except.ok (out, k2, seen2) →
      uniqueInv optionText avoid out seen2 := by
  intro raws
  induction raws with
  | nil =>
      intro unique k seen out k2 seen2 hinv h
      unfold ensureUniqueLoop at h
      injection h with h
      injection h with h1 h
      injection h with h2 h3
      subst h1; subst h3
      exact hinv
  | cons raw rest ih =>
      intro unique k seen out k2 seen2 hinv h
      unfold ensureUniqueLoop at h
      by_cases hcnt : count ≤ unique.length
      · rw [if_pos hcnt] at h
        injection h with h
        injection h with h1 h
        injection h with h2 h3
        subst h1; subst h3
        exact hinv
      · rw [if_neg hcnt] at h
        dsimp only at h
        by_cases hdup : is_duplicate (optionText raw) seen
        · rw [if_pos hdup] at h
          cases hr : retrySlot optionText errDup gen k 2 seen with
          | error e => rw [hr] at h; cases h
          | ok v =>
              obtain ⟨cand, ctext, kk, seenk⟩ := v
              rw [hr] at h
              dsimp only at h
              obtain ⟨e1, e2, e3⟩ := retrySlot_ok optionText errDup gen 2 k seen
                cand ctext kk seenk hr
              have hinv2 : uniqueInv optionText avoid unique seenk :=
                uniqueInv_mono optionText avoid unique seen seenk hinv e3
              have hstep := uniqueInv_step optionText avoid unique seenk cand hinv2
                (by rw [← e1]; exact e2)
              rw [← e1] at hstep
              exact ih (unique ++ [cand]) kk (seenk ++ [ctext]) out k2 seen2 hstep h
        · rw [if_neg hdup] at h
          have hstep := uniqueInv_step optionText avoid unique seen raw hinv
            (by simpa using hdup)
          exact ih (unique ++ [raw]) k (seen ++ [optionText raw]) out k2 seen2 hstep h

/-- Failures of the first phase carry the duplicate error message. -/
theorem ensureUniqueLoop_error {α : Type} (optionText : α → String)
    (errDup : String) (gen : Nat → List α) (count : Nat) :
    ∀ (raws unique : List α) (k : Nat) (seen : List String) (e : String),
      ensureUniqueLoop optionText errDup gen count raws unique k seen =
        Except.error e →
      e = errDup := by
  intro raws
  induction raws with
  | nil => intro unique k seen e h; cases h
  | cons raw rest ih =>
      intro unique k seen e h
      unfold ensureUniqueLoop at h
      by_cases hcnt : count ≤ unique.length
      · rw [if_pos hcnt] at h; cases h
      · rw [if_neg hcnt] at h
        dsimp only at h
        by_cases hdup : is_duplicate (optionText raw) seen
        · rw [if_pos hdup] at h
          cases hr : retrySlot optionText errDup gen k 2 seen with
          | error e0 =>
              rw [hr] at h
              injection h with h
              subst h
              exact retrySlot_error optionText errDup gen 2 k seen e0 hr
          | ok v =>
              obtain ⟨cand, ctext, kk, seenk⟩ := v
              rw [hr] at h
              dsimp only at h
              exact ih (unique ++ [cand]) kk (seenk ++ [ctext]) e h
        · rw [if_neg hdup] at h
          exact ih (unique ++ [raw]) k (seen ++ [optionText raw]) e h

/-- The second phase of _ensure_unique preserves the invariant. -/
theorem ensureUniqueFillAux_ok {α : Type} (optionText : α → String)
    (errDup errIns : String) (gen : Nat → List α) (avoid : List String) :
    ∀ (gas : Nat) (unique : List α) (k : Nat) (seen : List String)
      (out : List α) (k2 : Nat) (seen2 : List String),
      uniqueInv optionText avoid unique seen →
      ensureUniqueFillAux optionText errDup errIns gen gas unique k seen =
        Except.ok (out, k2, seen2) →
      uniqueInv optionText avoid out seen2 := by
  intro gas
  induction gas with
  | zero =>
      intro unique k seen out k2 seen2 hinv h
      unfold ensureUniqueFillAux at h
      injection h with h
      injection h with h1 h
      injection h with h2 h3
      subst h1; subst h3
      exact hinv
  | succ g ih =>
      intro unique k seen out k2 seen2 hinv h
      unfold ensureUniqueFillAux at h
      cases hg : gen k with
      | nil => rw [hg] at h; cases h
      | cons c0 rest =>
          rw [hg] at h
          dsimp only at h
          by_cases hdup : is_duplicate (optionText c0) seen
          · rw [if_pos hdup] at h; cases h
          · rw [if_neg hdup] at h
            have hstep := uniqueInv_step optionText avoid unique seen c0 hinv
              (by simpa using hdup)
            exact ih (unique ++ [c0]) (k + 1) (seen ++ [optionText c0]) out k2 seen2
              hstep h

/-- Failures of the second phase carry the duplicate or insufficient error
message. -/
theorem ensureUniqueFillAux_error {α : Type} (optionText : α → String)
    (errDup errIns : String) (gen : Nat → List α) :
    ∀ (gas : Nat) (unique : List α) (k : Nat) (seen : List String) (e : String),
      ensureUniqueFillAux optionText errDup errIns gen gas unique k seen =
        Except.error e →
      e = errDup ∨ e = errIns := by
  intro gas
  induction gas with
  | zero => intro unique k seen e h; cases h
  | succ g ih =>
      intro unique k seen e h
      unfold ensureUniqueFillAux at h
      cases hg : gen k with
      | nil =>
          rw [hg] at h
          injection h with h
          exact Or.inr h.symm
      | cons c0 rest =>
          rw [hg] at h
          dsimp only at h
          by_cases hdup : is_duplicate (optionText c0) seen
          · rw [if_pos hdup] at h
            injection h with h
            exact Or.inl h.symm
          · rw [if_neg hdup] at h
            exact ih (unique ++ [c0]) (k + 1) (seen ++ [optionText c0]) e h

/-- The generic _ensure_unique postcondition: returned options are pairwise
below the duplicate threshold and below it against the initial avoid list;
failures carry the duplicate or insufficient error. -/
theorem ensure_unique_spec {α : Type} (optionText : α → String)
    (errDup errIns : String) (gen : Nat → List α) (rawOptions : List α)
    (count : Nat) (avoid : List String) :
    (∀ out, ensure_unique optionText errDup errIns gen rawOptions count avoid =
        Except.ok out →
      List.Pairwise
        (fun a b => similarity (optionText a) (optionText b) < DUPLICATE_THRESHOLD)
        out ∧
      ∀ o ∈ out, ∀ a ∈ avoid,
        similarity (optionText o) a < DUPLICATE_THRESHOLD) ∧
    (∀ e, ensure_unique optionText errDup errIns gen rawOptions count avoid =
        Except.error e → e = errDup ∨ e = errIns) := by
  have hinit : uniqueInv optionText avoid [] avoid :=
    ⟨fun a ha => ha, by simp, by simp, by simp⟩
  constructor
  · intro out h
    unfold ensure_unique at h
    cases hl : ensureUniqueLoop optionText errDup gen count rawOptions [] 0 avoid with
    | error e => rw [hl] at h; cases h
    | ok v =>
        obtain ⟨u1, k1, s1⟩ := v
        rw [hl] at h
        dsimp only at h
        have hinv1 := ensureUniqueLoop_ok optionText errDup gen count avoid
          rawOptions [] 0 avoid u1 k1 s1 hinit hl
        unfold ensureUniqueFill at h
        cases hf : ensureUniqueFillAux optionText errDup errIns gen
            (count - u1.length) u1 k1 s1 with
        | error e => rw [hf] at h; cases h
        | ok v2 =>
            obtain ⟨u2, k2, s2⟩ := v2
            rw [hf] at h
            dsimp only at h
            injection h with h
            subst h
            have hinv2 := ensureUniqueFillAux_ok optionText errDup errIns gen avoid
              (count - u1.length) u1 k1 s1 u2 k2 s2 hinv1 hf
            obtain ⟨_, _, h3, h4⟩ := hinv2
            rw [List.pairwise_map] at h3
            exact ⟨h3, h4⟩
  · intro e h
    unfold ensure_unique at h
    cases hl : ensureUniqueLoop optionText errDup gen count rawOptions [] 0 avoid with
    | error e0 =>
        rw [hl] at h
        injection h with h
        subst h
        exact Or.inl (ensureUniqueLoop_error optionText errDup gen count
          rawOptions [] 0 avoid e0 hl)
    | ok v =>
        obtain ⟨u1, k1, s1⟩ := v
        rw [hl] at h
        dsimp only at h
        unfold ensureUniqueFill at h
        cases hf : ensureUniqueFillAux optionText errDup errIns gen
            (count - u1.length) u1 k1 s1 with
        | error e0 =>
            rw [hf] at h
            injection h with h
            subst h
            exact ensureUniqueFillAux_error optionText errDup errIns gen
              (count - u1.length) u1 k1 s1 e0 hf
        | ok v2 =>
            obtain ⟨u2, k2, s2⟩ := v2
            rw [hf] at h
            cases h


/-- C9: any list of options that QuestionChainGenerator._ensure_unique
returns (for any LM behaviour, modelled as an oracle indexed by invocation)
is pairwise distinct under the 3-gram Jaccard measure on normalized primary
texts, strictly below the 0.85 threshold, and each returned option is also
below the threshold against every entry of the initial avoid list; when the
wrapper does not return it fails with the duplicate-candidates or
insufficient-candidates error. -/
theorem C9_distinctness (gen : Nat → List RawOption) (rawOptions : List RawOption)
    (count : Nat) (avoid : List String) :
    (∀ out, qc_ensure_unique gen rawOptions count avoid = Except.ok out →
      List.Pairwise
        (fun a b => similarity (qcOptionText a) (qcOptionText b) < DUPLICATE_THRESHOLD)
        out ∧
      ∀ o ∈ out, ∀ a ∈ avoid,
        similarity (qcOptionText o) a < DUPLICATE_THRESHOLD) ∧
    (∀ e, qc_ensure_unique gen rawOptions count avoid = Except.error e →
      e = "Duplicate candidates detected for question_chain" ∨
      e = "Insufficient candidates for question_chain") :=
  ensure_unique_spec qcOptionText
    "Duplicate candidates detected for question_chain"
    "Insufficient candidates for question_chain"
    gen rawOptions count avoid

/-- Concrete raw options and oracle for the C9 witness. -/
def c9Raw1 : RawOption := { question_chain := QCVal.listVal ["ab"] }

/-- Second concrete raw option for the C9 witness. -/
def c9Raw2 : RawOption := { question_chain := QCVal.listVal ["xy"] }

/-- Concrete (never-consulted) oracle for the C9 witness. -/
def c9Gen : Nat → List RawOption := fun _ => []

end PBL

deriving instance DecidableEq for Except

namespace PBL

/-- Witness for C9 at a concrete input: two distinct options pass the
wrapper and are below the threshold pairwise and against the avoid list. -/
theorem C9_distinctness_witness :
    qc_ensure_unique c9Gen [c9Raw1, c9Raw2] 2 ["zzz"] =
      Except.ok [c9Raw1, c9Raw2] ∧
    similarity (qcOptionText c9Raw1) (qcOptionText c9Raw2) < DUPLICATE_THRESHOLD ∧
    similarity (qcOptionText c9Raw1) "zzz" < DUPLICATE_THRESHOLD := by
  have heq : qc_ensure_unique c9Gen [c9Raw1, c9Raw2] 2 ["zzz"] =
      Except.ok [c9Raw1, c9Raw2] := by decide
  have h := (C9_distinctness c9Gen [c9Raw1, c9Raw2] 2 ["zzz"]).1
    [c9Raw1, c9Raw2] heq
  refine ⟨heq, ?_, ?_⟩
  · exact (List.pairwise_cons.mp h.1).1 c9Raw2 (by simp)
  · exact h.2 c9Raw1 (by simp) "zzz" (by simp)

end PBL

namespace PBL

/-- Bool test from the loop guard of Orchestrator._recommend_candidate:
d bounds the alignment_score of every candidate in l. -/
def isMaxIn (l : List Candidate) (d : Candidate) : Bool :=
  l.all (fun e => decide (e.alignment_score ≤ d.alignment_score))

/-- Modelled from the spec: the candidate with the highest alignment_score,
ties broken by first-occurrence order, as the first list element that bounds
the whole list. -/
def firstMaxCandidate (l : List Candidate) : Option Candidate :=
  l.find? (isMaxIn l)

theorem find?_ext {α : Type} (p q : α → Bool) (l : List α) (h : ∀ x, p x = q x) :
    l.find? p = l.find? q := by
  have hpq : p = q := funext h
  rw [hpq]

theorem recommendAux_eq_find : ∀ (l : List Candidate) (b : Candidate),
    recommendAux (some b) l = (b :: l).find? (isMaxIn (b :: l)) := by
  intro l
  induction l with
  | nil =>
      intro b
      simp [recommendAux, isMaxIn, List.find?]
  | cons c cs ih =>
      intro b
      by_cases hbc : b.alignment_score < c.alignment_score
      · have hstep : recommendAux (some b) (c :: cs) = recommendAux (some c) cs := by
          simp [recommendAux, hbc]
        rw [hstep, ih c]
        have hcbF : ¬ (c.alignment_score ≤ b.alignment_score) := not_le.mpr hbc
        have hPb : ¬ isMaxIn (b :: c :: cs) b = true := by
          simp [isMaxIn, hcbF]
        have hext : ∀ d, isMaxIn (c :: cs) d = isMaxIn (b :: c :: cs) d := by
          intro d
          by_cases hcd : c.alignment_score ≤ d.alignment_score
          · have hbd : b.alignment_score ≤ d.alignment_score :=
              le_of_lt (lt_of_lt_of_le hbc hcd)
            simp [isMaxIn, hcd, hbd]
          · simp [isMaxIn, hcd]
        rw [List.find?_cons_of_neg (c :: cs) hPb]
        exact find?_ext _ _ _ hext
      · have hstep : recommendAux (some b) (c :: cs) = recommendAux (some b) cs := by
          simp [recommendAux, hbc]
        rw [hstep, ih b]
        have hcb : c.alignment_score ≤ b.alignment_score := le_of_not_lt hbc
        by_cases hPb : isMaxIn (b :: c :: cs) b = true
        · have hQb : isMaxIn (b :: cs) b = true := by
            have hPb2 := hPb
            simp only [isMaxIn, List.all_cons, Bool.and_eq_true,
              decide_eq_true_eq] at hPb2 ⊢
            exact ⟨hPb2.1, hPb2.2.2⟩
          rw [List.find?_cons_of_pos cs hQb, List.find?_cons_of_pos (c :: cs) hPb]
        · have hQb : ¬ isMaxIn (b :: cs) b = true := by
            intro hQ
            apply hPb
            simp only [isMaxIn, List.all_cons, Bool.and_eq_true,
              decide_eq_true_eq] at hQ ⊢
            exact ⟨hQ.1, hcb, hQ.2⟩
          have hPc : ¬ isMaxIn (b :: c :: cs) c = true := by
            intro hPc
            apply hPb
            simp only [isMaxIn, List.all_cons, Bool.and_eq_true,
              decide_eq_true_eq, List.all_eq_true] at hPc ⊢
            refine ⟨le_refl _, hcb, ?_⟩
            intro e he
            exact le_trans (hPc.2.2 e he) hcb
          have hext : ∀ d, isMaxIn (b :: cs) d = isMaxIn (b :: c :: cs) d := by
            intro d
            by_cases hbd : b.alignment_score ≤ d.alignment_score
            · have hcd : c.alignment_score ≤ d.alignment_score := le_trans hcb hbd
              simp [isMaxIn, hbd, hcd]
            · simp [isMaxIn, hbd]
          rw [List.find?_cons_of_neg cs hQb, List.find?_cons_of_neg (c :: cs) hPb,
              List.find?_cons_of_neg cs hPc]
          exact find?_ext _ _ _ hext

theorem recommendAux_none_eq (l : List Candidate) :
    recommendAux none l = firstMaxCandidate l := by
  cases l with
  | nil => rfl
  | cons c cs =>
      have h : recommendAux none (c :: cs) = recommendAux (some c) cs := by
        simp [recommendAux]
      rw [h, recommendAux_eq_find]
      rfl

theorem recommend_candidate_eq (art : StageArtifact) :
    recommend_candidate (some art) = firstMaxCandidate art.candidates := by
  have h0 : recommend_candidate (some art) =
      if art.candidates = [] then none else recommendAux none art.candidates := rfl
  rw [h0]
  by_cases h : art.candidates = []
  · rw [if_pos h, h]
    rfl
  · rw [if_neg h, recommendAux_none_eq]

theorem recommendAux_some_isSome : ∀ (l : List Candidate) (b : Candidate),
    (recommendAux (some b) l).isSome := by
  intro l
  induction l with
  | nil => intro b; rfl
  | cons c cs ih =>
      intro b
      show (if b.alignment_score < c.alignment_score then recommendAux (some c) cs
            else recommendAux (some b) cs).isSome
      split
      · exact ih c
      · exact ih b

theorem find?_eq_some_split {α : Type} (p : α → Bool) :
    ∀ (l : List α) (a : α), l.find? p = some a →
      p a = true ∧ ∃ pre post, l = pre ++ a :: post ∧ ∀ x ∈ pre, p x = false := by
  intro l
  induction l with
  | nil => intro a h; simp [List.find?] at h
  | cons c cs ih =>
      intro a h
      by_cases hc : p c = true
      · rw [List.find?_cons_of_pos cs hc] at h
        injection h with h
        subst h
        exact ⟨hc, [], cs, rfl, by intro x hx; simp at hx⟩
      · rw [List.find?_cons_of_neg cs hc] at h
        obtain ⟨hp, pre, post, hsp, hpre⟩ := ih a h
        refine ⟨hp, c :: pre, post, by rw [hsp]; rfl, ?_⟩
        intro x hx
        rcases List.mem_cons.mp hx with hx | hx
        · subst hx
          exact Bool.eq_false_iff.mpr (fun hcx => hc (by rw [hcx]))
        · exact hpre x hx

theorem firstMax_exists_of_ne_nil (l : List Candidate) (hne : l ≠ []) :
    ∃ rec pre post, firstMaxCandidate l = some rec ∧ l = pre ++ rec :: post ∧
      (∀ e ∈ l, e.alignment_score ≤ rec.alignment_score) ∧
      ∀ e ∈ pre, e.alignment_score < rec.alignment_score := by
  have hsome : (firstMaxCandidate l).isSome := by
    rw [← recommendAux_none_eq]
    cases l with
    | nil => exact absurd rfl hne
    | cons c cs =>
        have h : recommendAux none (c :: cs) = recommendAux (some c) cs := by
          simp [recommendAux]
        rw [h]
        exact recommendAux_some_isSome cs c
  obtain ⟨rec, hrec⟩ := Option.isSome_iff_exists.mp hsome
  obtain ⟨hp, pre, post, hsplit, hpre⟩ := find?_eq_some_split _ l rec hrec
  have hmax : ∀ e ∈ l, e.alignment_score ≤ rec.alignment_score := by
    unfold isMaxIn at hp
    rw [List.all_eq_true] at hp
    intro e he
    exact of_decide_eq_true (hp e he)
  refine ⟨rec, pre, post, hrec, hsplit, hmax, ?_⟩
  intro e hepre
  have hf : isMaxIn l e = false := hpre e hepre
  obtain ⟨f, hfl, hfd⟩ :
      ∃ f ∈ l, ¬ (decide (f.alignment_score ≤ e.alignment_score) = true) := by
    by_contra hcon
    push_neg at hcon
    have hall : l.all (fun x => decide (x.alignment_score ≤ e.alignment_score)) = true :=
      List.all_eq_true.mpr hcon
    unfold isMaxIn at hf
    rw [hall] at hf
    exact absurd hf (by simp)
  have hlt : e.alignment_score < f.alignment_score :=
    lt_of_not_le (fun hle => hfd (decide_eq_true hle))
  exact lt_of_lt_of_le hlt (hmax f hfl)

theorem force_exit_decision_spec (stage : StageType) (a : StageArtifact) :
    (force_exit_decision stage a).direction = "force_exit" ∧
    (force_exit_decision stage a).constraints.force_exit = true ∧
    (force_exit_decision stage a).constraints.recommended_candidate_id =
      Option.map Candidate.id (firstMaxCandidate a.candidates) ∧
    (force_exit_decision stage a).constraints.recommended_title =
      Option.map Candidate.title (firstMaxCandidate a.candidates) ∧
    (force_exit_decision stage a).constraints.recommended_alignment_score =
      Option.map Candidate.alignment_score (firstMaxCandidate a.candidates) := by
  unfold force_exit_decision
  rw [recommend_candidate_eq]
  cases h : firstMaxCandidate a.candidates with
  | none => simp
  | some rec => simp

theorem feedback_event_artifacts (now : Nat) (fresh : String) (task : Task)
    (event : Event) (stage : StageType) (art : StageArtifact) (fb : String)
    (htype : event.type = "feedback_recorded")
    (hstage : event.stage = some stage)
    (hfb : event.payload.feedback = some fb)
    (hart : task.artifacts stage = some art) :
    (apply_event now fresh task event).artifacts stage =
      some { art with status := StageStatus.feedback_loop,
                      history := art.history ++
                        [HistoryEntry.feedback now "feedback" fb] } := by
  have h1 : ¬(event.type = "task_created") := by simp [htype]
  have h2 : ¬(event.type = "decision_emitted") := by simp [htype]
  have h3 : ¬(event.type = "candidates_generated" ∨
      event.type = "candidates_regenerated") := by simp [htype]
  have h4 : ¬(event.type = "candidate_selected") := by simp [htype]
  unfold apply_event
  rw [if_neg h1, if_neg h2, if_neg h3, if_neg h4, if_pos htype]
  simp only [hstage]
  simp only [ensure_artifact, hart, hfb]
  rw [append_wm_artifacts]
  simp [setStage]

theorem feedback_branch_force_exit
    (g : StageType → Option String → Nat → List Candidate)
    (msgOracle : Task → DecisionResult → String) (now : Nat)
    (fresh freshConf : String) (task : Task) (stage : StageType)
    (art : StageArtifact) (payloadFeedback : Option String)
    (hart : task.artifacts stage = some art)
    (hiter : MAX_ITERATIONS ≤ art.iteration_count) :
    feedback_or_regen_branch g msgOracle now fresh freshConf task
        ActionType.provide_feedback stage payloadFeedback =
      Except.ok
        { task := emit_decision msgOracle now fresh
            (apply_event now fresh task
              { type := "feedback_recorded", stage := some stage,
                payload := { feedback := some (payloadFeedback.getD "") } })
            (force_exit_decision stage
              { art with status := StageStatus.feedback_loop,
                         history := art.history ++
                           [HistoryEntry.feedback now "feedback"
                             (payloadFeedback.getD "")] }),
          decision := force_exit_decision stage
              { art with status := StageStatus.feedback_loop,
                         history := art.history ++
                           [HistoryEntry.feedback now "feedback"
                             (payloadFeedback.getD "")] },
          artifact :=
            (emit_decision msgOracle now fresh
              (apply_event now fresh task
                { type := "feedback_recorded", stage := some stage,
                  payload := { feedback := some (payloadFeedback.getD "") } })
              (force_exit_decision stage
                { art with status := StageStatus.feedback_loop,
                           history := art.history ++
                             [HistoryEntry.feedback now "feedback"
                               (payloadFeedback.getD "")] })).artifacts stage } := by
  have hlive := feedback_event_artifacts now fresh task
    { type := "feedback_recorded", stage := some stage,
      payload := { feedback := some (payloadFeedback.getD "") } }
    stage art (payloadFeedback.getD "") rfl rfl rfl hart
  have hforce : should_force_exit
      ({ art with status := StageStatus.feedback_loop,
                  history := art.history ++
                    [HistoryEntry.feedback now "feedback"
                      (payloadFeedback.getD "")] } : StageArtifact).iteration_count
        = true := by
    simp [should_force_exit, hiter]
  unfold feedback_or_regen_branch
  rw [if_pos rfl]
  dsimp only
  rw [hart, hlive]
  dsimp only
  rw [hforce]
  rfl

theorem regen_branch_force_exit
    (g : StageType → Option String → Nat → List Candidate)
    (msgOracle : Task → DecisionResult → String) (now : Nat)
    (fresh freshConf : String) (task : Task) (stage : StageType)
    (art : StageArtifact) (payloadFeedback : Option String)
    (hart : task.artifacts stage = some art)
    (hiter : MAX_ITERATIONS ≤ art.iteration_count) :
    feedback_or_regen_branch g msgOracle now fresh freshConf task
        ActionType.regenerate_candidates stage payloadFeedback =
      Except.ok
        { task := emit_decision msgOracle now fresh task
            (force_exit_decision stage art),
          decision := force_exit_decision stage art,
          artifact :=
            (emit_decision msgOracle now fresh task
              (force_exit_decision stage art)).artifacts stage } := by
  have hforce : should_force_exit art.iteration_count = true := by
    simp [should_force_exit, hiter]
  unfold feedback_or_regen_branch
  rw [if_neg (by decide : ¬(ActionType.regenerate_candidates =
    ActionType.provide_feedback)), if_pos rfl]
  dsimp only
  rw [hart]
  dsimp only
  rw [hforce]
  rfl

theorem apply_action_slice_head
    (g : StageType → Option String → Nat → List Candidate)
    (msgOracle : Task → DecisionResult → String) (now : Nat)
    (fresh freshConf : String) (task : Task) (action : ActionType)
    (stage : StageType) (art : StageArtifact) (payloadFeedback : Option String)
    (hart : task.artifacts stage = some art)
    (hallowed : can_apply_action art.status action = true)
    (hdep : topo_sort_missing_chain stage task.entry_point task.completed_stages =
        Except.ok [] ∨
      ∃ rest, topo_sort_missing_chain stage task.entry_point task.completed_stages =
        Except.ok (stage :: rest)) :
    apply_action_slice g msgOracle now fresh freshConf task action
        (some stage) payloadFeedback =
      feedback_or_regen_branch g msgOracle now fresh freshConf task action
        stage payloadFeedback := by
  unfold apply_action_slice
  simp only [Option.getD_some]
  rw [hart]
  dsimp only
  rw [hallowed, if_neg (by decide : ¬((!true : Bool) = true))]
  rcases hdep with hd | ⟨rest, hd⟩
  · rw [hd]
  · rw [hd]
    dsimp only
    rw [if_neg (by simp)]

theorem can_apply_feedback (st : StageStatus) :
    can_apply_action st ActionType.provide_feedback = true := by
  cases st <;> decide

theorem can_apply_regen (st : StageStatus) :
    can_apply_action st ActionType.regenerate_candidates = true := by
  cases st <;> decide

/-- C6: for an artifact whose iteration count has reached MAX_ITERATIONS = 10,
applying provide_feedback or regenerate_candidates (with the dependency check
passing for the stage) returns a force_exit decision whose constraints carry
force_exit = true and, as recommendation fields, the id, title and
alignment_score of the first candidate of maximal alignment_score (every
candidate scores no higher, every strictly earlier candidate scores strictly
lower), and the result is the same for every generator oracle (the generator
is not invoked). -/
theorem C6_force_exit_recommendation
    (genOracle : StageType → Option String → Nat → List Candidate)
    (msgOracle : Task → DecisionResult → String) (now : Nat)
    (fresh freshConf : String) (task : Task) (action : ActionType)
    (stage : StageType) (art : StageArtifact) (payloadFeedback : Option String)
    (hart : task.artifacts stage = some art)
    (hiter : MAX_ITERATIONS ≤ art.iteration_count)
    (haction : action = ActionType.provide_feedback ∨
      action = ActionType.regenerate_candidates)
    (hdep : topo_sort_missing_chain stage task.entry_point task.completed_stages =
        Except.ok [] ∨
      ∃ rest, topo_sort_missing_chain stage task.entry_point task.completed_stages =
        Except.ok (stage :: rest)) :
    ∃ res, apply_action_slice genOracle msgOracle now fresh freshConf task action
        (some stage) payloadFeedback = Except.ok res ∧
      res.decision.direction = "force_exit" ∧
      res.decision.constraints.force_exit = true ∧
      res.decision.constraints.recommended_candidate_id =
        Option.map Candidate.id (firstMaxCandidate art.candidates) ∧
      res.decision.constraints.recommended_title =
        Option.map Candidate.title (firstMaxCandidate art.candidates) ∧
      res.decision.constraints.recommended_alignment_score =
        Option.map Candidate.alignment_score (firstMaxCandidate art.candidates) ∧
      (art.candidates ≠ [] →
        ∃ rec pre post, firstMaxCandidate art.candidates = some rec ∧
          art.candidates = pre ++ rec :: post ∧
          (∀ e ∈ art.candidates, e.alignment_score ≤ rec.alignment_score) ∧
          ∀ e ∈ pre, e.alignment_score < rec.alignment_score) ∧
      ∀ g2, apply_action_slice g2 msgOracle now fresh freshConf task action
          (some stage) payloadFeedback =
        apply_action_slice genOracle msgOracle now fresh freshConf task action
          (some stage) payloadFeedback := by
  have hallowed : can_apply_action art.status action = true := by
    rcases haction with h | h
    · rw [h]; exact can_apply_feedback art.status
    · rw [h]; exact can_apply_regen art.status
  rcases haction with ha | ha <;> subst ha
  · have key : ∀ g : StageType → Option String → Nat → List Candidate,
        apply_action_slice g msgOracle now fresh freshConf task
          ActionType.provide_feedback (some stage) payloadFeedback =
        Except.ok
          { task := emit_decision msgOracle now fresh
              (apply_event now fresh task
                { type := "feedback_recorded", stage := some stage,
                  payload := { feedback := some (payloadFeedback.getD "") } })
              (force_exit_decision stage
                { art with status := StageStatus.feedback_loop,
                           history := art.history ++
                             [HistoryEntry.feedback now "feedback"
                               (payloadFeedback.getD "")] }),
            decision := force_exit_decision stage
                { art with status := StageStatus.feedback_loop,
                           history := art.history ++
                             [HistoryEntry.feedback now "feedback"
                               (payloadFeedback.getD "")] },
            artifact :=
              (emit_decision msgOracle now fresh
                (apply_event now fresh task
                  { type := "feedback_recorded", stage := some stage,
                    payload := { feedback := some (payloadFeedback.getD "") } })
                (force_exit_decision stage
                  { art with status := StageStatus.feedback_loop,
                             history := art.history ++
                               [HistoryEntry.feedback now "feedback"
                                 (payloadFeedback.getD "")] })).artifacts stage } :=
      fun g =>
        (apply_action_slice_head g msgOracle now fresh freshConf task
            ActionType.provide_feedback stage art payloadFeedback hart hallowed
            hdep).trans
          (feedback_branch_force_exit g msgOracle now fresh freshConf task stage
            art payloadFeedback hart hiter)
    obtain ⟨hd1, hd2, hd3, hd4, hd5⟩ := force_exit_decision_spec stage
      { art with status := StageStatus.feedback_loop,
                 history := art.history ++
                   [HistoryEntry.feedback now "feedback"
                     (payloadFeedback.getD "")] }
    exact ⟨_, key genOracle, hd1, hd2, hd3, hd4, hd5,
      fun hne => firstMax_exists_of_ne_nil art.candidates hne,
      fun g2 => (key g2).trans (key genOracle).symm⟩
  · have key : ∀ g : StageType → Option String → Nat → List Candidate,
        apply_action_slice g msgOracle now fresh freshConf task
          ActionType.regenerate_candidates (some stage) payloadFeedback =
        Except.ok
          { task := emit_decision msgOracle now fresh task
              (force_exit_decision stage art),
            decision := force_exit_decision stage art,
            artifact :=
              (emit_decision msgOracle now fresh task
                (force_exit_decision stage art)).artifacts stage } :=
      fun g =>
        (apply_action_slice_head g msgOracle now fresh freshConf task
            ActionType.regenerate_candidates stage art payloadFeedback hart
            hallowed hdep).trans
          (regen_branch_force_exit g msgOracle now fresh freshConf task stage
            art payloadFeedback hart hiter)
    obtain ⟨hd1, hd2, hd3, hd4, hd5⟩ := force_exit_decision_spec stage art
    exact ⟨_, key genOracle, hd1, hd2, hd3, hd4, hd5,
      fun hne => firstMax_exists_of_ne_nil art.candidates hne,
      fun g2 => (key g2).trans (key genOracle).symm⟩

/-- Concrete candidates for the C6 witness: the maximal score 4/5 first
appears at the second position. -/
def c6Artifact : StageArtifact :=
  { stage := StageType.scenario, revision_id := "r", iteration_count := 10,
    candidates :=
      [{ id := "A", title := "ta", alignment_score := mkRat 1 2 },
       { id := "B", title := "tb", alignment_score := mkRat 4 5 },
       { id := "C", title := "tc", alignment_score := mkRat 4 5 }] }

/-- Concrete task for the C6 witness. -/
def c6Task : Task :=
  { entry_point := EntryPoint.scenario, current_stage := StageType.scenario,
    artifacts := setStage (fun _ => none) StageType.scenario (some c6Artifact) }

/-- Witness for C6 at concrete inputs: regenerate_candidates at iteration
count 10 on a scenario artifact whose dependency chain is [scenario]. -/
theorem C6_force_exit_recommendation_witness :
    c6Task.artifacts StageType.scenario = some c6Artifact ∧
    MAX_ITERATIONS ≤ c6Artifact.iteration_count ∧
    (ActionType.regenerate_candidates = ActionType.provide_feedback ∨
      ActionType.regenerate_candidates = ActionType.regenerate_candidates) ∧
    (topo_sort_missing_chain StageType.scenario c6Task.entry_point
        c6Task.completed_stages = Except.ok [] ∨
      ∃ rest, topo_sort_missing_chain StageType.scenario c6Task.entry_point
        c6Task.completed_stages = Except.ok (StageType.scenario :: rest)) ∧
    (∃ res, apply_action_slice (fun _ _ _ => []) (fun _ _ => "m") 1 "f" "cf"
        c6Task ActionType.regenerate_candidates (some StageType.scenario) none =
        Except.ok res ∧
      res.decision.direction = "force_exit" ∧
      res.decision.constraints.force_exit = true ∧
      res.decision.constraints.recommended_candidate_id =
        Option.map Candidate.id (firstMaxCandidate c6Artifact.candidates) ∧
      res.decision.constraints.recommended_title =
        Option.map Candidate.title (firstMaxCandidate c6Artifact.candidates) ∧
      res.decision.constraints.recommended_alignment_score =
        Option.map Candidate.alignment_score (firstMaxCandidate c6Artifact.candidates) ∧
      (c6Artifact.candidates ≠ [] →
        ∃ rec pre post, firstMaxCandidate c6Artifact.candidates = some rec ∧
          c6Artifact.candidates = pre ++ rec :: post ∧
          (∀ e ∈ c6Artifact.candidates,
            e.alignment_score ≤ rec.alignment_score) ∧
          ∀ e ∈ pre, e.alignment_score < rec.alignment_score) ∧
      ∀ g2, apply_action_slice g2 (fun _ _ => "m") 1 "f" "cf" c6Task
          ActionType.regenerate_candidates (some StageType.scenario) none =
        apply_action_slice (fun _ _ _ => []) (fun _ _ => "m") 1 "f" "cf" c6Task
          ActionType.regenerate_candidates (some StageType.scenario) none) :=
  ⟨rfl, by decide, Or.inr rfl, Or.inr ⟨[], by decide⟩,
    C6_force_exit_recommendation (fun _ _ _ => []) (fun _ _ => "m") 1 "f" "cf"
      c6Task ActionType.regenerate_candidates StageType.scenario c6Artifact none
      rfl (by decide) (Or.inr rfl) (Or.inr ⟨[], by decide⟩)⟩

end PBL
